import Mathlib

/-!
Verification of kwmserver, `signaling/rtm/webrtc.go`

A shallow embedding of the WebRTC signalling handler of the RTM manager:
the channel hash (`computeWebRTCChannelHash`, `checkWebRTCChannelHash`), the
dispatch wrapper `onWebRTC` and the engine `processWebRTCMessage`.

Conventions of the embedding.

* A Go `string` is a Lean `String`.  Go compares strings byte by byte, Lean
  compares them code point by code point; on well-formed UTF-8 (which is what
  the JSON decoder hands to the handler) the two orders are the same.
* A Go `[]byte` that is not text (an HMAC sum) is a `List Nat`.
* Pointers are identities: a `*connection.Connection` is a `ConnID`, a
  `*Channel` is a `Channel` handle made of its address and its `id` field.
* Everything the handler calls but that lives outside `webrtc.go` (the HMAC
  with the process key, base64, JSON, the channel type, the connection
  directory, the api constants) is a field of `Env`, acting on a collaborator
  state `σ`.  The registry `m.channels` is modelled concretely, because the
  get-or-create callback is part of `webrtc.go`.
* Every effectful call the handler makes is appended to `State.trace`, in
  program order.
-/

namespace Kwm

/-! ## Data model -/

/-- A byte slice that is not text. -/
abbrev Bytes := List Nat

/-- Identity of a `*connection.Connection`. -/
abbrev ConnID := Nat

/-- The error codes of `api.RTMTypeError.ErrorData.Code`. -/
inductive ErrorID
  | BadMessage
  | NoSessionForUser
  | Other (code : String)
  deriving DecidableEq

/-- A Go `error` value: an `*api.RTMTypeError` (code, text, correlation id) or
any other error. -/
inductive Err
  | rtm (code : ErrorID) (text : String) (replyTo : Nat)
  | other (text : String)
  deriving DecidableEq

/-- What a call of the handler yields: `nil`, an error, or a run-time panic. -/
inductive Result
  | nil
  | error (e : Err)
  | panic (what : String)
  deriving DecidableEq

/-- The constructor `api.NewRTMTypeError(code, text, id)`. -/
def NewRTMTypeError (code : ErrorID) (text : String) (id : Nat) : Result :=
  Result.error (Err.rtm code text id)

/-- The message `api.RTMTypeWebRTC` (envelope fields `type`, `subtype`, `id`
included).  `data` is a `json.RawMessage`; `none` is the nil slice. -/
structure RTMTypeWebRTC where
  type : String
  subtype : String
  id : Nat
  version : Nat
  initiator : Bool
  source : String
  target : String
  group : String
  state : String
  channel : String
  hash : String
  data : Option String
  deriving DecidableEq

/-- The reply `api.RTMTypeWebRTCReply`, with the fields the handler sets. -/
structure RTMTypeWebRTCReply where
  type : String
  subtype : String
  replyTo : Nat
  channel : String
  hash : String
  data : Option String
  version : Nat
  deriving DecidableEq

/-- What is handed to `Connection.Send`. -/
inductive Payload
  | reply (r : RTMTypeWebRTCReply)
  | webrtc (m : RTMTypeWebRTC)
  deriving DecidableEq

/-- The record bound to a connection (`userRecord`); the handler reads `id`. -/
structure userRecord where
  id : String
  deriving DecidableEq

/-- A `*Channel`: its address and its `id` field. -/
structure Channel where
  ptr : Nat
  id : String
  deriving DecidableEq

/-- The registry value `channelRecord`. -/
structure channelRecord where
  when : Nat
  channel : Channel
  deriving DecidableEq

/-- The pipeline of a channel, as far as the handler reads it (`ID()`, `Mode()`). -/
structure Pipeline where
  id : String
  mode : String
  deriving DecidableEq

/-- The struct `api.RTMTDataWebRTCChannelGroup`. -/
structure RTMTDataWebRTCChannelGroup where
  group : String
  members : List String
  deriving DecidableEq

/-- The struct `api.RTMDataWebRTCChannelExtra`; both fields are pointers. -/
structure RTMDataWebRTCChannelExtra where
  group : Option RTMTDataWebRTCChannelGroup
  pipeline : Option Pipeline
  deriving DecidableEq

/-- The struct `api.RTMDataWebRTCAccept`. -/
structure RTMDataWebRTCAccept where
  accept : Bool
  reason : String
  deriving DecidableEq

/-- The registry `m.channels`: a map from channel id to an interface value,
which is a `*channelRecord` or nil.  The first entry for a key is the current
one. -/
abbrev Registry := List (String × Option channelRecord)

/-- An effectful call made by the handler. -/
inductive Event
  | send (c : ConnID) (p : Payload)
  | upsert (key : String)
  | setIfAbsent (key : String) (record : channelRecord)
  | get (key : String)
  | createKnownChannel (id : String) (group : String)
  | createRandomChannel
  | add (ch : Channel) (user : String) (c : ConnID)
  | remove (ch : Channel) (user : String)
  | forward (ch : Channel) (source target : String) (conn : Option ConnID) (m : RTMTypeWebRTC)
  deriving DecidableEq

/-- The manager as the handler sees it: the registry, the state of the
collaborators, and the calls made so far. -/
structure State (σ : Type) where
  channels : Registry
  ext : σ
  trace : List Event

/-- The collaborators of the handler. -/
structure Env (σ : Type) where
  /-- The keyed hash `hmac.New(sha256.New, webrtcChannelHashKey)` of everything written. -/
  hmac : String → Bytes
  /-- Function `base64.StdEncoding.EncodeToString`. -/
  EncodeToString : Bytes → String
  /-- Constant `api.RTMTypeNameWebRTC`. -/
  RTMTypeNameWebRTC : String
  /-- Constant `api.RTMSubtypeNameWebRTCGroup`. -/
  RTMSubtypeNameWebRTCGroup : String
  /-- Constant `api.RTMSubtypeNameWebRTCCall`. -/
  RTMSubtypeNameWebRTCCall : String
  /-- Constant `api.RTMSubtypeNameWebRTCHangup`. -/
  RTMSubtypeNameWebRTCHangup : String
  /-- Constant `api.RTMSubtypeNameWebRTCSignal`. -/
  RTMSubtypeNameWebRTCSignal : String
  /-- Constant `api.RTMSubtypeNameWebRTCChannel`. -/
  RTMSubtypeNameWebRTCChannel : String
  /-- Method `c.Bound()`, nil or a `*userRecord`. -/
  Bound : σ → ConnID → Option userRecord
  /-- Function `CreateNamedGroupChannelID(group, m)`. -/
  CreateNamedGroupChannelID : σ → String → Except String String
  /-- Function `CreateKnownChannel(id, m, &ChannelConfig{Group: group, ...})`. -/
  CreateKnownChannel : σ → String → String → Except String Channel × σ
  /-- Function `CreateRandomChannel(m, nil)`. -/
  CreateRandomChannel : σ → Except String Channel × σ
  /-- Function `time.Now()`. -/
  Now : σ → Nat
  /-- Method `channel.Add(id, c)`: the error text, if any. -/
  Add : σ → Channel → String → ConnID → Option String × σ
  /-- Method `channel.Remove(id)`. -/
  Remove : σ → Channel → String → σ
  /-- Method `channel.Get(id)`. -/
  Get : σ → Channel → String → Option ConnID
  /-- Method `channel.Connections()`, first component. -/
  Connections : σ → Channel → List String
  /-- Method `channel.Pipeline()`. -/
  Pipeline : σ → Channel → Option Pipeline
  /-- Method `channel.checkWebRTCMessage(id, msg)`. -/
  checkWebRTCMessage : σ → Channel → String → RTMTypeWebRTC → Option Err
  /-- Method `channel.Forward(source, target, connection, msg)`. -/
  Forward : σ → Channel → String → String → Option ConnID → RTMTypeWebRTC → Option Err × σ
  /-- Method `m.LookupConnectionsByUserID(id)`. -/
  LookupConnectionsByUserID : σ → String → Option (List ConnID)
  /-- Function `json.MarshalIndent(data, "", "\t")`. -/
  MarshalIndent : RTMDataWebRTCChannelExtra → Except String String
  /-- Function `json.Unmarshal(data, &extra)` for `extra *api.RTMDataWebRTCAccept`;
  `none` is the pointer left nil (JSON `null`). -/
  Unmarshal : Option String → Except String (Option RTMDataWebRTCAccept)

/-- Constant `minimalWebRTCPayloadVersion`. -/
def minimalWebRTCPayloadVersion : Nat := 0

/-- Constant `currentWebRTCPayloadVersion`. -/
def currentWebRTCPayloadVersion : Nat := 20180703

/-! ## The channel hash -/

/-- Function `computeWebRTCChannelHash`: the writes to the HMAC are
concatenated, the two ids in increasing order. -/
def computeWebRTCChannelHash (hmac : String → Bytes) (msgType source target channel : String) :
    Bytes :=
  if source < target then
    hmac (msgType ++ source ++ target ++ channel)
  else
    hmac (msgType ++ target ++ source ++ channel)

/-- Function `checkWebRTCChannelHash`; `hmac.Equal` is equality of the slices. -/
def checkWebRTCChannelHash (hmac : String → Bytes) (hash : Bytes)
    (msgType source target channel : String) : Bool :=
  decide (hash = computeWebRTCChannelHash hmac msgType source target channel)

/-! ## The registry and the connection -/

/-- Append one call to the trace. -/
def State.log {σ : Type} (s : State σ) (e : Event) : State σ :=
  { s with trace := s.trace ++ [e] }

/-- Method `connection.Send(payload)`: fire and forget, recorded in the trace. -/
def Send {σ : Type} (c : ConnID) (p : Payload) (s : State σ) : State σ :=
  s.log (Event.send c p)

/-- Loop `for _, connection := range connections { connection.Send(msg) }`. -/
def sendAll {σ : Type} (connections : List ConnID) (p : Payload) (s : State σ) : State σ :=
  connections.foldl (fun st connection => Send connection p st) s

/-- The notification loop of the responder branch: every connection except `c`. -/
def sendOthers {σ : Type} (connections : List ConnID) (c : ConnID) (p : Payload)
    (s : State σ) : State σ :=
  connections.foldl (fun st connection => if connection = c then st else Send connection p st) s

/-- Method `m.channels.Get(key)`: the value and whether the key is present. -/
def channelsGet (r : Registry) (key : String) : Option (Option channelRecord) :=
  r.lookup key

/-- Method `m.channels.SetIfAbsent(key, value)`. -/
def SetIfAbsent {σ : Type} (key : String) (record : channelRecord) (s : State σ) : State σ :=
  match channelsGet s.channels key with
  | none => { (s.log (Event.setIfAbsent key record)) with
                channels := (key, some record) :: s.channels }
  | some _ => s.log (Event.setIfAbsent key record)

/-- Method `m.channels.Upsert(key, nil, cb)`: the callback gets whether the key
is present and its value, and what it returns is stored under the key and
returned. -/
def Upsert {σ : Type} (key : String)
    (cb : Option (Option channelRecord) → State σ → Option channelRecord × State σ)
    (s : State σ) : Option channelRecord × State σ :=
  match cb (channelsGet s.channels key) (s.log (Event.upsert key)) with
  | (res, s1) => (res, { s1 with channels := (key, res) :: s1.channels })

/-- The callback handed to `Upsert` by the Group branch (lines 123-141). -/
def upsertGroupCallback {σ : Type} (env : Env σ) (channelID group : String)
    (valueInMap : Option (Option channelRecord)) (s : State σ) :
    Option channelRecord × State σ :=
  match valueInMap with
  | some (some record) => (some record, s)
  | _ =>
    match env.CreateKnownChannel s.ext channelID group with
    | (Except.error _, ext1) =>
      (none, { (s.log (Event.createKnownChannel channelID group)) with ext := ext1 })
    | (Except.ok newChannel, ext1) =>
      (some { when := env.Now ext1, channel := newChannel },
       { (s.log (Event.createKnownChannel channelID group)) with ext := ext1 })

/-! ## The engine -/

/-- Branch `case api.RTMSubtypeNameWebRTCGroup` (lines 92-196). -/
def processGroup {σ : Type} (env : Env σ) (c : ConnID) (msg : RTMTypeWebRTC) (s : State σ) :
    Result × State σ :=
  match env.Bound s.ext c with
  | none => (NewRTMTypeError ErrorID.BadMessage "connection has no user" msg.id, s)
  | some ur =>
    if msg.target = "" then
      (NewRTMTypeError ErrorID.BadMessage "target is empty" msg.id, s)
    else if msg.target ≠ msg.group then
      (NewRTMTypeError ErrorID.BadMessage "target and group mismatch" msg.id, s)
    else if msg.state = "" then
      (NewRTMTypeError ErrorID.BadMessage "state is empty" msg.id, s)
    else if msg.source ≠ "" then
      (NewRTMTypeError ErrorID.BadMessage "source must be empty" msg.id, s)
    else
      match env.CreateNamedGroupChannelID s.ext msg.group with
      | Except.error err => (NewRTMTypeError ErrorID.BadMessage err msg.id, s)
      | Except.ok channelID =>
        match Upsert channelID (upsertGroupCallback env channelID msg.group) s with
        | (none, s1) => (Result.error (Err.other "channel upsert without result"), s1)
        | (some record, s1) =>
          match env.Add s1.ext record.channel ur.id c with
          | (some err, ext2) =>
            (NewRTMTypeError ErrorID.BadMessage err msg.id,
             { (s1.log (Event.add record.channel ur.id c)) with ext := ext2 })
          | (none, ext2) =>
            match env.MarshalIndent
                { group := some { group := msg.group,
                                  members := env.Connections ext2 record.channel },
                  pipeline := env.Pipeline ext2 record.channel } with
            | Except.error err =>
              (Result.error (Err.other ("failed to encode group data: " ++ err)),
               { (s1.log (Event.add record.channel ur.id c)) with ext := ext2 })
            | Except.ok extra =>
              (Result.nil,
               Send c (Payload.reply
                 { type := env.RTMTypeNameWebRTC
                   subtype := env.RTMSubtypeNameWebRTCChannel
                   replyTo := msg.id
                   channel := record.channel.id
                   hash := env.EncodeToString
                     (computeWebRTCChannelHash env.hmac msg.type ur.id msg.group
                       record.channel.id)
                   data := some extra
                   version := currentWebRTCPayloadVersion })
                 { (s1.log (Event.add record.channel ur.id c)) with ext := ext2 })

/-- Call initiator, from the hash on (lines 261-295): `extra` is the encoded
pipeline descriptor, `s` the state after `SetIfAbsent`. -/
def processCallOffer {σ : Type} (env : Env σ) (c : ConnID) (ur : userRecord)
    (msg : RTMTypeWebRTC) (channel : Channel) (extra : Option String) (s : State σ) :
    Result × State σ :=
  let msg1 : RTMTypeWebRTC :=
    { msg with
      source := ur.id
      channel := channel.id
      hash := env.EncodeToString
        (computeWebRTCChannelHash env.hmac msg.type ur.id msg.target channel.id)
      data := extra }
  let s1 := Send c (Payload.reply
    { type := env.RTMTypeNameWebRTC
      subtype := env.RTMSubtypeNameWebRTCChannel
      replyTo := msg1.id
      channel := msg1.channel
      hash := msg1.hash
      version := currentWebRTCPayloadVersion
      data := msg1.data }) s
  let msg2 : RTMTypeWebRTC := { msg1 with id := 0 }
  match env.LookupConnectionsByUserID s1.ext msg2.target with
  | none => (NewRTMTypeError ErrorID.NoSessionForUser "target not found" msg2.id, s1)
  | some connections => (Result.nil, sendAll connections (Payload.webrtc msg2) s1)

/-- Call initiator (lines 224-295), after the checks common to both Call
branches. -/
def processCallInitiator {σ : Type} (env : Env σ) (c : ConnID) (ur : userRecord)
    (msg : RTMTypeWebRTC) (s : State σ) : Result × State σ :=
  if msg.channel ≠ "" ∨ msg.hash ≠ "" then
    (NewRTMTypeError ErrorID.BadMessage "channel and hash must be empty" msg.id, s)
  else if msg.data ≠ none then
    (NewRTMTypeError ErrorID.BadMessage "data must be empty" msg.id, s)
  else
    match env.CreateRandomChannel s.ext with
    | (Except.error err, ext1) =>
      (Result.error (Err.other ("failed to create channel: " ++ err)),
       { (s.log Event.createRandomChannel) with ext := ext1 })
    | (Except.ok channel, ext1) =>
      match env.Add ext1 channel ur.id c with
      | (some err, ext2) =>
        (NewRTMTypeError ErrorID.BadMessage err msg.id,
         { ((s.log Event.createRandomChannel).log (Event.add channel ur.id c)) with
             ext := ext2 })
      | (none, ext2) =>
        let s3 := SetIfAbsent channel.id { when := env.Now ext2, channel := channel }
          { ((s.log Event.createRandomChannel).log (Event.add channel ur.id c)) with
              ext := ext2 }
        match env.Pipeline s3.ext channel with
        | some pipeline =>
          match env.MarshalIndent { group := none, pipeline := some pipeline } with
          | Except.error err =>
            (Result.error (Err.other ("failed to encode channel extra data: " ++ err)), s3)
          | Except.ok extra => processCallOffer env c ur msg channel (some extra) s3
        | none => processCallOffer env c ur msg channel none s3

/-- Call responder, the last step (lines 378-387): forward to the target's
connection in the channel. -/
def processCallForward {σ : Type} (env : Env σ) (ur : userRecord) (channel : Channel)
    (msg : RTMTypeWebRTC) (s : State σ) : Result × State σ :=
  let msg1 : RTMTypeWebRTC := { msg with source := ur.id, id := 0 }
  match env.Get s.ext channel msg1.target with
  | none => (NewRTMTypeError ErrorID.NoSessionForUser "target not found" msg1.id, s)
  | some connection => (Result.nil, Send connection (Payload.webrtc msg1) s)

/-- Call responder, plain call, after the optional `Add` (lines 345-375). -/
def processCallNotify {σ : Type} (env : Env σ) (c : ConnID) (ur : userRecord)
    (channel : Channel) (extra : RTMDataWebRTCAccept) (msg : RTMTypeWebRTC) (s : State σ) :
    Result × State σ :=
  match env.LookupConnectionsByUserID s.ext ur.id with
  | some connections =>
    if !extra.accept ∧ extra.reason = "reject_busy" ∧ connections.length > 1 then
      (Result.nil, s)
    else
      processCallForward env ur channel msg
        (sendOthers connections c (Payload.webrtc
          { type := env.RTMTypeNameWebRTC
            subtype := env.RTMSubtypeNameWebRTCCall
            id := 0
            version := currentWebRTCPayloadVersion
            initiator := true
            source := msg.target
            target := ""
            group := ""
            state := ""
            channel := msg.channel
            hash := ""
            data := none }) s)
  | none => processCallForward env ur channel msg s

/-- Call responder (lines 297-388), after the checks common to both Call
branches. -/
def processCallResponder {σ : Type} (env : Env σ) (c : ConnID) (ur : userRecord)
    (msg : RTMTypeWebRTC) (s : State σ) : Result × State σ :=
  if msg.channel = "" ∨ msg.hash = "" ∨ msg.data = none then
    (NewRTMTypeError ErrorID.BadMessage "channel, hash or data is empty" msg.id, s)
  else
    match channelsGet s.channels msg.channel with
    | none =>
      (NewRTMTypeError ErrorID.BadMessage "channel not found" msg.id,
       s.log (Event.get msg.channel))
    | some none =>
      (Result.panic "interface conversion: interface is nil, not *rtm.channelRecord",
       s.log (Event.get msg.channel))
    | some (some record) =>
      match env.checkWebRTCMessage s.ext record.channel ur.id msg with
      | some err => (Result.error err, s.log (Event.get msg.channel))
      | none =>
        match env.Unmarshal msg.data with
        | Except.error err => (Result.error (Err.other err), s.log (Event.get msg.channel))
        | Except.ok none =>
          (Result.panic "invalid memory address or nil pointer dereference",
           s.log (Event.get msg.channel))
        | Except.ok (some extra) =>
          if msg.group ≠ "" then
            if !extra.accept then
              (NewRTMTypeError ErrorID.BadMessage "accept required for group call" msg.id,
               s.log (Event.get msg.channel))
            else
              processCallForward env ur record.channel
                { msg with
                  hash := env.EncodeToString
                    (computeWebRTCChannelHash env.hmac msg.type ur.id msg.target
                      record.channel.id) }
                (s.log (Event.get msg.channel))
          else if extra.accept then
            match env.Add s.ext record.channel ur.id c with
            | (some err, ext2) =>
              (NewRTMTypeError ErrorID.BadMessage err msg.id,
               { ((s.log (Event.get msg.channel)).log (Event.add record.channel ur.id c)) with
                   ext := ext2 })
            | (none, ext2) =>
              processCallNotify env c ur record.channel extra msg
                { ((s.log (Event.get msg.channel)).log (Event.add record.channel ur.id c)) with
                    ext := ext2 }
          else
            processCallNotify env c ur record.channel extra msg (s.log (Event.get msg.channel))

/-- Branch `case api.RTMSubtypeNameWebRTCCall` (lines 198-388). -/
def processCall {σ : Type} (env : Env σ) (c : ConnID) (msg : RTMTypeWebRTC) (s : State σ) :
    Result × State σ :=
  match env.Bound s.ext c with
  | none => (NewRTMTypeError ErrorID.BadMessage "connection has no user" msg.id, s)
  | some ur =>
    if msg.target = "" then
      (NewRTMTypeError ErrorID.BadMessage "target is empty" msg.id, s)
    else if msg.target = ur.id then
      (NewRTMTypeError ErrorID.BadMessage "target same as source" msg.id, s)
    else if msg.state = "" then
      (NewRTMTypeError ErrorID.BadMessage "state is empty" msg.id, s)
    else if msg.source ≠ "" then
      (NewRTMTypeError ErrorID.BadMessage "source must be empty" msg.id, s)
    else if msg.initiator then
      processCallInitiator env c ur msg s
    else
      processCallResponder env c ur msg s

/-- Hangup and Signal, from `if ok || targetConnection != nil` on (lines 469-474,
then line 480). -/
def processRelay {σ : Type} (env : Env σ) (ur : userRecord) (channel : Channel)
    (targetConnection : Option ConnID) (ok : Bool) (msg : RTMTypeWebRTC) (s : State σ) :
    Result × State σ :=
  if ok ∨ targetConnection ≠ none then
    match env.Forward s.ext channel ur.id msg.target targetConnection msg with
    | (none, ext1) =>
      (Result.nil,
       { (s.log (Event.forward channel ur.id msg.target targetConnection msg)) with
           ext := ext1 })
    | (some err, ext1) =>
      (Result.error err,
       { (s.log (Event.forward channel ur.id msg.target targetConnection msg)) with
           ext := ext1 })
  else if !ok then
    (NewRTMTypeError ErrorID.NoSessionForUser "target not found" msg.id, s)
  else
    (Result.nil, s)

/-- Hangup and Signal, from `if msg.Subtype == api.RTMSubtypeNameWebRTCHangup` on
(lines 442-474). -/
def processTeardown {σ : Type} (env : Env σ) (ur : userRecord) (channel : Channel)
    (targetConnection : Option ConnID) (ok : Bool) (msg : RTMTypeWebRTC) (s : State σ) :
    Result × State σ :=
  if msg.subtype = env.RTMSubtypeNameWebRTCHangup then
    if !ok then
      match env.LookupConnectionsByUserID (env.Remove s.ext channel ur.id) msg.target with
      | none =>
        (NewRTMTypeError ErrorID.NoSessionForUser "target not found" msg.id,
         { (s.log (Event.remove channel ur.id)) with ext := env.Remove s.ext channel ur.id })
      | some connections =>
        (Result.nil,
         sendAll connections (Payload.webrtc { msg with source := ur.id, id := 0 })
           { (s.log (Event.remove channel ur.id)) with
               ext := env.Remove s.ext channel ur.id })
    else
      processRelay env ur channel targetConnection ok msg
        { (s.log (Event.remove channel ur.id)) with ext := env.Remove s.ext channel ur.id }
  else
    processRelay env ur channel targetConnection ok msg s

/-- Branches `case api.RTMSubtypeNameWebRTCHangup` (fallthrough) and
`case api.RTMSubtypeNameWebRTCSignal` (lines 390-474). -/
def processHangupSignal {σ : Type} (env : Env σ) (c : ConnID) (msg : RTMTypeWebRTC)
    (s : State σ) : Result × State σ :=
  match env.Bound s.ext c with
  | none => (NewRTMTypeError ErrorID.BadMessage "connection has no user" msg.id, s)
  | some ur =>
    if msg.state = "" then
      (NewRTMTypeError ErrorID.BadMessage "state is empty" msg.id, s)
    else if msg.source ≠ "" then
      (NewRTMTypeError ErrorID.BadMessage "source must be empty" msg.id, s)
    else if msg.channel = "" ∨ msg.hash = "" ∨ msg.data = none then
      (NewRTMTypeError ErrorID.BadMessage "channel hash or data is empty" msg.id, s)
    else
      match channelsGet s.channels msg.channel with
      | none =>
        (NewRTMTypeError ErrorID.BadMessage "channel not found" msg.id,
         s.log (Event.get msg.channel))
      | some none =>
        (Result.panic "interface conversion: interface is nil, not *rtm.channelRecord",
         s.log (Event.get msg.channel))
      | some (some record) =>
        match env.checkWebRTCMessage s.ext record.channel ur.id msg with
        | some err => (Result.error err, s.log (Event.get msg.channel))
        | none =>
          if msg.group ≠ "" ∧ msg.target = msg.group then
            processTeardown env ur record.channel none true msg (s.log (Event.get msg.channel))
          else if msg.target ≠ "" then
            processTeardown env ur record.channel (env.Get s.ext record.channel msg.target)
              (env.Get s.ext record.channel msg.target).isSome msg
              (s.log (Event.get msg.channel))
          else
            processTeardown env ur record.channel none false msg
              (s.log (Event.get msg.channel))

/-- Method `processWebRTCMessage` (lines 86-481). -/
def processWebRTCMessage {σ : Type} (env : Env σ) (c : ConnID) (msg : RTMTypeWebRTC)
    (s : State σ) : Result × State σ :=
  if msg.version < minimalWebRTCPayloadVersion then
    (NewRTMTypeError ErrorID.BadMessage "outdated WebRTC payload version" msg.id, s)
  else if msg.subtype = env.RTMSubtypeNameWebRTCGroup then
    processGroup env c msg s
  else if msg.subtype = env.RTMSubtypeNameWebRTCCall then
    processCall env c msg s
  else if msg.subtype = env.RTMSubtypeNameWebRTCHangup
      ∨ msg.subtype = env.RTMSubtypeNameWebRTCSignal then
    processHangupSignal env c msg s
  else
    (NewRTMTypeError ErrorID.BadMessage "unknown subtype" msg.id, s)

/-- Method `onWebRTC` (lines 69-84). -/
def onWebRTC {σ : Type} (env : Env σ) (c : ConnID) (msg : RTMTypeWebRTC) (s : State σ) :
    Result × State σ :=
  match processWebRTCMessage env c msg s with
  | (Result.error (Err.rtm ErrorID.NoSessionForUser _ _), s1) => (Result.nil, s1)
  | (processErr, s1) => (processErr, s1)

/-- The messages sent, in order, among the calls of a trace. -/
def sends : List Event → List (ConnID × Payload)
  | [] => []
  | Event.send c p :: t => (c, p) :: sends t
  | _ :: t => sends t

/-- Preservation of records: every non-nil record of `r` is still the record of
its key in `r'`. -/
def Registry.preserved (r r' : Registry) : Prop :=
  ∀ k record, channelsGet r k = some (some record) → channelsGet r' k = some (some record)

/-- Well-formed registry: a record is stored under the id of its channel. -/
def Registry.keyed (r : Registry) : Prop :=
  ∀ k record, channelsGet r k = some (some record) → record.channel.id = k

/-! ## A small concrete instance

A collaborator state with a directory of bound connections and the
memberships of the channels, used to run the engine on concrete inputs. -/

/-- A concrete collaborator state: the user bound to each connection, the
memberships `(channel id, user, connection)` and a counter for fresh channels. -/
structure Directory where
  users : List (ConnID × String)
  members : List (String × String × ConnID)
  fresh : Nat
  deriving DecidableEq

/-- An injective stand-in for the keyed hash: the code points of the input. -/
def demoHmac (s : String) : Bytes :=
  s.data.map Char.toNat

/-- A stand-in for base64: the text with the given code points (injective on
lists of code points, such as the values of `demoHmac`). -/
def demoEncode (b : Bytes) : String :=
  String.mk (b.map Char.ofNat)

/-- The connections the directory lists for a user, in order. -/
def Directory.connectionsOf (d : Directory) (user : String) : List ConnID :=
  (d.users.filter (fun e => e.2 = user)).map (fun e => e.1)

/-- A concrete set of collaborators over `Directory`. -/
def demoEnv : Env Directory where
  hmac := demoHmac
  EncodeToString := demoEncode
  RTMTypeNameWebRTC := "webrtc"
  RTMSubtypeNameWebRTCGroup := "webrtc_group"
  RTMSubtypeNameWebRTCCall := "webrtc_call"
  RTMSubtypeNameWebRTCHangup := "webrtc_hangup"
  RTMSubtypeNameWebRTCSignal := "webrtc_signal"
  RTMSubtypeNameWebRTCChannel := "webrtc_channel"
  Bound := fun d c => (d.users.lookup c).map userRecord.mk
  CreateNamedGroupChannelID := fun _ group =>
    if group = "" then Except.error "group is empty" else Except.ok ("group-" ++ group)
  CreateKnownChannel := fun d id _ =>
    (Except.ok { ptr := d.fresh, id := id }, { d with fresh := d.fresh + 1 })
  CreateRandomChannel := fun d =>
    (Except.ok { ptr := d.fresh, id := String.mk (List.replicate (d.fresh + 1) 'r') },
     { d with fresh := d.fresh + 1 })
  Now := fun d => d.fresh
  Add := fun d ch user c => (none, { d with members := (ch.id, user, c) :: d.members })
  Remove := fun d ch user =>
    { d with members := d.members.filter (fun e => ¬ (e.1 = ch.id ∧ e.2.1 = user)) }
  Get := fun d ch user =>
    (d.members.find? (fun e => e.1 = ch.id ∧ e.2.1 = user)).map (fun e => e.2.2)
  Connections := fun d ch => (d.members.filter (fun e => e.1 = ch.id)).map (fun e => e.2.1)
  Pipeline := fun _ _ => none
  checkWebRTCMessage := fun _ _ _ _ => none
  Forward := fun d _ _ _ _ _ => (none, d)
  LookupConnectionsByUserID := fun d user =>
    if d.connectionsOf user = [] then none else some (d.connectionsOf user)
  MarshalIndent := fun data =>
    match data.group with
    | some g => Except.ok ("group=" ++ g.group ++ " members=" ++ String.intercalate "," g.members)
    | none => Except.ok "pipeline"
  Unmarshal := fun data =>
    match data with
    | some "accept" => Except.ok (some { accept := true, reason := "" })
    | some "reject" => Except.ok (some { accept := false, reason := "reject" })
    | some "reject_busy" => Except.ok (some { accept := false, reason := "reject_busy" })
    | some "null" => Except.ok none
    | _ => Except.error "invalid character"

/-- Connection 1 is bound to user `A`, connections 2 and 3 to user `B`. -/
def demoDirectory : Directory :=
  { users := [(1, "A"), (2, "B"), (3, "B")], members := [], fresh := 0 }

/-- An empty registry over `demoDirectory`, nothing called yet. -/
def demoState : State Directory :=
  { channels := [], ext := demoDirectory, trace := [] }

/-- A message with every field empty, of the given subtype and request id. -/
def demoMsg (subtype : String) (id : Nat) : RTMTypeWebRTC :=
  { type := "webrtc", subtype := subtype, id := id, version := 20180703, initiator := false,
    source := "", target := "", group := "", state := "", channel := "", hash := "",
    data := none }

/-- A Group message of user `A` for the group `g1`. -/
def demoGroupMsg : RTMTypeWebRTC :=
  { demoMsg "webrtc_group" 7 with target := "g1", group := "g1", state := "x" }

/-- A Call offer to the given target. -/
def demoOfferMsg (target : String) : RTMTypeWebRTC :=
  { demoMsg "webrtc_call" 7 with initiator := true, target := target, state := "x" }

/-- The state after user `A` joined the group `g1` on connection 1. -/
def demoJoined : State Directory :=
  { channels := [("group-g1", some { when := 1, channel := { ptr := 0, id := "group-g1" } })],
    ext := { demoDirectory with members := [("group-g1", "A", 1)], fresh := 1 },
    trace := [] }

/-! ## Path conditions of the responder and of the Hangup and Signal branches -/

/-- Conversion of the `error` a collaborator returns into the result of the
handler that returns it as it is. -/
def Result.ofError : Option Err → Result
  | none => Result.nil
  | some err => Result.error err

/-- The message `clearedMsg` built by the responder branch (lines 358-367). -/
def clearedMsg {σ : Type} (env : Env σ) (msg : RTMTypeWebRTC) : RTMTypeWebRTC :=
  { type := env.RTMTypeNameWebRTC
    subtype := env.RTMSubtypeNameWebRTCCall
    id := 0
    version := currentWebRTCPayloadVersion
    initiator := true
    source := msg.target
    target := ""
    group := ""
    state := ""
    channel := msg.channel
    hash := ""
    data := none }

/-- The message the responder branch forwards (lines 378-380): source set, id
cleared. -/
def forwardedMsg (ur : userRecord) (msg : RTMTypeWebRTC) : RTMTypeWebRTC :=
  { msg with source := ur.id, id := 0 }

/-- The connections the directory lists for a user, the handling connection
`c` left out: the receivers of `clearedMsg` (lines 347 and 368-373). -/
def otherSessions {σ : Type} (env : Env σ) (ext : σ) (user : String) (c : ConnID) :
    List ConnID :=
  match env.LookupConnectionsByUserID ext user with
  | some connections => connections.filter (fun k => k ≠ c)
  | none => []

/-- Path condition of the Call responder branch down to the decoded data
(lines 198-321): the message is a Call with `initiator = false` on a connection
bound to `ur`, it passes the checks of lines 206-220 and 299, its channel is
registered with `record`, the channel accepts the message and the data decode
to `extra`. -/
structure CallResponderValidated {σ : Type} (env : Env σ) (c : ConnID) (msg : RTMTypeWebRTC)
    (s : State σ) (ur : userRecord) (record : channelRecord) (extra : RTMDataWebRTCAccept) :
    Prop where
  subtype : msg.subtype = env.RTMSubtypeNameWebRTCCall
  notGroup : env.RTMSubtypeNameWebRTCCall ≠ env.RTMSubtypeNameWebRTCGroup
  responder : msg.initiator = false
  bound : env.Bound s.ext c = some ur
  target : msg.target ≠ ""
  notSelf : msg.target ≠ ur.id
  state : msg.state ≠ ""
  source : msg.source = ""
  channel : msg.channel ≠ ""
  hash : msg.hash ≠ ""
  data : msg.data ≠ none
  registered : channelsGet s.channels msg.channel = some (some record)
  checked : env.checkWebRTCMessage s.ext record.channel ur.id msg = none
  decoded : env.Unmarshal msg.data = Except.ok (some extra)

/-- Path condition of the Hangup and Signal branch down to the message check
(lines 390-424): the subtype is Hangup or Signal (and neither Group nor Call,
which come first in the switch), the connection is bound to `ur`, the message
passes the checks of lines 400-409, its channel is registered with `record` and
the channel accepts the message. -/
structure HangupSignalValidated {σ : Type} (env : Env σ) (c : ConnID) (msg : RTMTypeWebRTC)
    (s : State σ) (ur : userRecord) (record : channelRecord) : Prop where
  subtype : msg.subtype = env.RTMSubtypeNameWebRTCHangup
    ∨ msg.subtype = env.RTMSubtypeNameWebRTCSignal
  notGroup : msg.subtype ≠ env.RTMSubtypeNameWebRTCGroup
  notCall : msg.subtype ≠ env.RTMSubtypeNameWebRTCCall
  bound : env.Bound s.ext c = some ur
  state : msg.state ≠ ""
  source : msg.source = ""
  channel : msg.channel ≠ ""
  hash : msg.hash ≠ ""
  data : msg.data ≠ none
  registered : channelsGet s.channels msg.channel = some (some record)
  checked : env.checkWebRTCMessage s.ext record.channel ur.id msg = none

/-- The state after user `A` offered a call to user `B` on connection 1: the
channel `r` is registered and `A` is its only member. -/
def demoOffered : State Directory :=
  { channels := [("r", some { when := 1, channel := { ptr := 0, id := "r" } })],
    ext := { demoDirectory with members := [("r", "A", 1)], fresh := 1 },
    trace := [] }

/-- The record of the channel `r` in `demoOffered`. -/
def demoRecord : channelRecord :=
  { when := 1, channel := { ptr := 0, id := "r" } }

/-- An answer of user `B` to the offer of `A` on channel `r`. -/
def demoAnswerMsg (group data : String) : RTMTypeWebRTC :=
  { demoMsg "webrtc_call" 8 with
    target := "A", group := group, state := "y", channel := "r", hash := "h",
    data := some data }

/-- A Hangup or Signal message on channel `r`. -/
def demoRelayMsg (subtype group target : String) : RTMTypeWebRTC :=
  { demoMsg subtype 9 with
    target := target, group := group, state := "z", channel := "r", hash := "h",
    data := some "payload" }

/-- A decoder for `demoEncode`: the code points of the text. -/
def demoDecode (text : String) : Option Bytes :=
  some (text.data.map Char.toNat)

/-! ## Lemmas on strings and on the stand-ins -/

theorem demoHmac_injective : Function.Injective demoHmac := by
  intro a b h
  have hc : Function.Injective Char.toNat := by
    intro x y hxy
    apply Char.ext
    apply UInt32.ext
    simpa [Char.toNat] using hxy
  exact String.ext (List.map_injective_iff.2 hc h)

theorem string_append_inj {a b c d : String} (h : a ++ b = c ++ d)
    (hl : a.length = c.length) : a = c ∧ b = d := by
  have h' : a.data ++ b.data = c.data ++ d.data := by
    simpa using congrArg String.data h
  have hsplit := List.append_inj h' (by simpa using hl)
  exact ⟨String.ext hsplit.1, String.ext hsplit.2⟩

theorem pair_of_min_max {a b a' b' : String} (h1 : min a b = min a' b')
    (h2 : max a b = max a' b') : (a = a' ∧ b = b') ∨ (a = b' ∧ b = a') := by
  rcases le_total a b with h | h <;> rcases le_total a' b' with h' | h'
  · rw [min_eq_left h, min_eq_left h'] at h1
    rw [max_eq_right h, max_eq_right h'] at h2
    exact Or.inl ⟨h1, h2⟩
  · rw [min_eq_left h, min_eq_right h'] at h1
    rw [max_eq_right h, max_eq_left h'] at h2
    exact Or.inr ⟨h1, h2⟩
  · rw [min_eq_right h, min_eq_left h'] at h1
    rw [max_eq_left h, max_eq_right h'] at h2
    exact Or.inr ⟨h2, h1⟩
  · rw [min_eq_right h, min_eq_right h'] at h1
    rw [max_eq_left h, max_eq_left h'] at h2
    exact Or.inl ⟨h2, h1⟩

theorem aba_lt_ba : "aba" < "ba" := by
  rw [String.lt_iff_toList_lt]; decide

theorem ab_lt_aba : "ab" < "aba" := by
  rw [String.lt_iff_toList_lt]; decide

theorem alice_lt_bob : "alice" < "bob" := by
  rw [String.lt_iff_toList_lt]; decide

/-! ## The channel hash -/

/-- The hash is the keyed hash of type, smaller id, larger id, channel, written
one after the other. -/
theorem computeWebRTCChannelHash_eq_min_max (hmac : String → Bytes) (t a b c : String) :
    computeWebRTCChannelHash hmac t a b c = hmac (t ++ min a b ++ max a b ++ c) := by
  unfold computeWebRTCChannelHash
  split_ifs with h
  · rw [min_eq_left h.le, max_eq_right h.le]
  · rw [min_eq_right (not_lt.1 h), max_eq_left (not_lt.1 h)]

/-- C1: the hash does not depend on the order of the two participants:
`computeWebRTCChannelHash(t, a, b, c) = computeWebRTCChannelHash(t, b, a, c)`
for every keyed hash, type, ids and channel. -/
theorem computeWebRTCChannelHash_comm (hmac : String → Bytes) (msgType source target
    channel : String) :
    computeWebRTCChannelHash hmac msgType source target channel
      = computeWebRTCChannelHash hmac msgType target source channel := by
  rw [computeWebRTCChannelHash_eq_min_max, computeWebRTCChannelHash_eq_min_max,
    min_comm, max_comm]

/-- C2, as stated, fails: with an injective keyed hash, the hash computed for
the participants `aba` and `ba` verifies for the participants `aba` and `ab`
(same type, same channel), because both write the bytes `ababa` between type
and channel. -/
theorem checkWebRTCChannelHash_accepts_altered_target :
    Function.Injective demoHmac ∧
    checkWebRTCChannelHash demoHmac
        (computeWebRTCChannelHash demoHmac "webrtc" "aba" "ba" "c")
        "webrtc" "aba" "ab" "c" = true ∧
    ¬ (("aba" = "aba" ∧ "ba" = "ab") ∨ ("aba" = "ab" ∧ "ba" = "aba")) := by
  refine ⟨demoHmac_injective, ?_, by decide⟩
  unfold checkWebRTCChannelHash computeWebRTCChannelHash
  rw [if_pos aba_lt_ba, if_neg (lt_asymm ab_lt_aba)]
  decide

/-- C2, amended: with an injective keyed hash, if a hash computed for
`(t, a, b, c)` verifies for `(t', a', b', c')` and the fields kept their
lengths (the type, the smaller id and the larger id), then `t = t'`, `c = c'`
and the pairs of participants are equal up to order. -/
theorem checkWebRTCChannelHash_tamper_evident (hmac : String → Bytes)
    (hinj : Function.Injective hmac) (t a b c t' a' b' c' : String)
    (hcheck : checkWebRTCChannelHash hmac (computeWebRTCChannelHash hmac t a b c)
      t' a' b' c' = true)
    (ht : t.length = t'.length) (hlo : (min a b).length = (min a' b').length)
    (hhi : (max a b).length = (max a' b').length) :
    t = t' ∧ c = c' ∧ ((a = a' ∧ b = b') ∨ (a = b' ∧ b = a')) := by
  unfold checkWebRTCChannelHash at hcheck
  rw [decide_eq_true_eq, computeWebRTCChannelHash_eq_min_max,
    computeWebRTCChannelHash_eq_min_max] at hcheck
  have h := hinj hcheck
  have h3 := string_append_inj h (by simp [String.length_append, ht, hlo, hhi])
  have h2 := string_append_inj h3.1 (by simp [String.length_append, ht, hlo])
  have h1 := string_append_inj h2.1 ht
  exact ⟨h1.1, h3.2, pair_of_min_max h1.2 h2.2⟩

/-- Witness of C2 amended: the hash of `(webrtc, alice, bob, c1)` verifies with
the participants exchanged, and the fields are recovered. -/
theorem checkWebRTCChannelHash_tamper_evident_witness :
    checkWebRTCChannelHash demoHmac
        (computeWebRTCChannelHash demoHmac "webrtc" "alice" "bob" "c1")
        "webrtc" "bob" "alice" "c1" = true ∧
    ("webrtc" = "webrtc" ∧ "c1" = "c1" ∧
      (("alice" = "bob" ∧ "bob" = "alice") ∨ ("alice" = "alice" ∧ "bob" = "bob"))) :=
  have hcheck : checkWebRTCChannelHash demoHmac
      (computeWebRTCChannelHash demoHmac "webrtc" "alice" "bob" "c1")
      "webrtc" "bob" "alice" "c1" = true := by
    unfold checkWebRTCChannelHash
    rw [computeWebRTCChannelHash_eq_min_max, computeWebRTCChannelHash_eq_min_max,
      min_comm, max_comm]
    simp
  ⟨hcheck,
   checkWebRTCChannelHash_tamper_evident demoHmac demoHmac_injective
     "webrtc" "alice" "bob" "c1" "webrtc" "bob" "alice" "c1" hcheck rfl
     (by rw [min_comm]) (by rw [max_comm])⟩

/-! ## The dispatch wrapper -/

/-- C3: `onWebRTC` leaves the state as `processWebRTCMessage` left it; it returns
nil when `processWebRTCMessage` returned an `RTMTypeError` with code
`NoSessionForUser`, and in every other case it returns what
`processWebRTCMessage` returned (nil, another `RTMTypeError`, another error). -/
theorem onWebRTC_postprocessing {σ : Type} (env : Env σ) (c : ConnID) (msg : RTMTypeWebRTC)
    (s : State σ) :
    (onWebRTC env c msg s).2 = (processWebRTCMessage env c msg s).2 ∧
    ((∃ text id, (processWebRTCMessage env c msg s).1
          = Result.error (Err.rtm ErrorID.NoSessionForUser text id)) →
      (onWebRTC env c msg s).1 = Result.nil) ∧
    ((¬ ∃ text id, (processWebRTCMessage env c msg s).1
          = Result.error (Err.rtm ErrorID.NoSessionForUser text id)) →
      (onWebRTC env c msg s).1 = (processWebRTCMessage env c msg s).1) := by
  unfold onWebRTC
  rcases hres : processWebRTCMessage env c msg s with ⟨r, s1⟩
  cases r with
  | nil => simp
  | panic what => simp
  | error e =>
    cases e with
    | other text => simp
    | rtm code text id => cases code <;> simp

/-- Witness of C3: an offer to a user without connection ends in
`NoSessionForUser`, which `onWebRTC` turns into nil; a Group message without
target ends in `BadMessage`, which `onWebRTC` returns as it is. -/
theorem onWebRTC_postprocessing_witness :
    (onWebRTC demoEnv 1 (demoOfferMsg "C") demoState).1 = Result.nil ∧
    (onWebRTC demoEnv 1 (demoMsg "webrtc_group" 7) demoState).1
      = (processWebRTCMessage demoEnv 1 (demoMsg "webrtc_group" 7) demoState).1 :=
  ⟨(onWebRTC_postprocessing demoEnv 1 (demoOfferMsg "C") demoState).2.1
      ⟨"target not found", 0, by decide⟩,
   (onWebRTC_postprocessing demoEnv 1 (demoMsg "webrtc_group" 7) demoState).2.2
      (by
        rintro ⟨text, id, h⟩
        have h' : (processWebRTCMessage demoEnv 1 (demoMsg "webrtc_group" 7) demoState).1
            = NewRTMTypeError ErrorID.BadMessage "target is empty" 7 := by decide
        rw [h'] at h
        simp [NewRTMTypeError] at h)⟩

/-! ## The engine: state lemmas -/

variable {σ : Type}

@[simp] theorem State.log_channels (s : State σ) (e : Event) : (s.log e).channels = s.channels := rfl
@[simp] theorem State.log_ext (s : State σ) (e : Event) : (s.log e).ext = s.ext := rfl
@[simp] theorem State.log_trace (s : State σ) (e : Event) : (s.log e).trace = s.trace ++ [e] := rfl
@[simp] theorem Send_channels (c : ConnID) (p : Payload) (s : State σ) : (Send c p s).channels = s.channels := rfl
@[simp] theorem Send_ext (c : ConnID) (p : Payload) (s : State σ) : (Send c p s).ext = s.ext := rfl
@[simp] theorem Send_trace (c : ConnID) (p : Payload) (s : State σ) : (Send c p s).trace = s.trace ++ [Event.send c p] := rfl

@[simp] theorem sendAll_channels (l : List ConnID) (p : Payload) (s : State σ) :
    (sendAll l p s).channels = s.channels := by
  unfold sendAll
  induction l generalizing s with
  | nil => rfl
  | cons k t ih => simp only [List.foldl_cons]; rw [ih]; rfl

@[simp] theorem sendAll_ext (l : List ConnID) (p : Payload) (s : State σ) :
    (sendAll l p s).ext = s.ext := by
  unfold sendAll
  induction l generalizing s with
  | nil => rfl
  | cons k t ih => simp only [List.foldl_cons]; rw [ih]; rfl

theorem sendAll_trace (l : List ConnID) (p : Payload) (s : State σ) :
    (sendAll l p s).trace = s.trace ++ l.map (fun k => Event.send k p) := by
  unfold sendAll
  induction l generalizing s with
  | nil => simp
  | cons k t ih => simp only [List.foldl_cons]; rw [ih]; simp

@[simp] theorem sendOthers_channels (l : List ConnID) (c : ConnID) (p : Payload) (s : State σ) :
    (sendOthers l c p s).channels = s.channels := by
  unfold sendOthers
  induction l generalizing s with
  | nil => rfl
  | cons k t ih =>
    simp only [List.foldl_cons]; rw [ih]; split_ifs <;> rfl

@[simp] theorem sendOthers_ext (l : List ConnID) (c : ConnID) (p : Payload) (s : State σ) :
    (sendOthers l c p s).ext = s.ext := by
  unfold sendOthers
  induction l generalizing s with
  | nil => rfl
  | cons k t ih =>
    simp only [List.foldl_cons]; rw [ih]; split_ifs <;> rfl

theorem sendOthers_trace (l : List ConnID) (c : ConnID) (p : Payload) (s : State σ) :
    (sendOthers l c p s).trace
      = s.trace ++ (l.filter (fun k => k ≠ c)).map (fun k => Event.send k p) := by
  unfold sendOthers
  induction l generalizing s with
  | nil => simp
  | cons k t ih =>
    simp only [List.foldl_cons]; rw [ih]
    by_cases h : k = c <;> simp [h, List.filter_cons]

theorem processCallForward_channels (env : Env σ) (ur : userRecord) (channel : Channel)
    (msg : RTMTypeWebRTC) (s : State σ) :
    (processCallForward env ur channel msg s).2.channels = s.channels := by
  unfold processCallForward
  simp only []
  split <;> rfl

theorem processCallNotify_channels (env : Env σ) (c : ConnID) (ur : userRecord)
    (channel : Channel) (extra : RTMDataWebRTCAccept) (msg : RTMTypeWebRTC) (s : State σ) :
    (processCallNotify env c ur channel extra msg s).2.channels = s.channels := by
  unfold processCallNotify
  split
  · split_ifs
    · rfl
    · rw [processCallForward_channels]; simp
  · rw [processCallForward_channels]

theorem processCallResponder_channels (env : Env σ) (c : ConnID) (ur : userRecord)
    (msg : RTMTypeWebRTC) (s : State σ) :
    (processCallResponder env c ur msg s).2.channels = s.channels := by
  unfold processCallResponder
  repeat' split
  all_goals first | rfl | simp [processCallForward_channels, processCallNotify_channels]

theorem processRelay_channels (env : Env σ) (ur : userRecord) (channel : Channel)
    (tc : Option ConnID) (ok : Bool) (msg : RTMTypeWebRTC) (s : State σ) :
    (processRelay env ur channel tc ok msg s).2.channels = s.channels := by
  unfold processRelay
  repeat' split
  all_goals rfl

theorem processTeardown_channels (env : Env σ) (ur : userRecord) (channel : Channel)
    (tc : Option ConnID) (ok : Bool) (msg : RTMTypeWebRTC) (s : State σ) :
    (processTeardown env ur channel tc ok msg s).2.channels = s.channels := by
  unfold processTeardown
  repeat' split
  all_goals first | rfl | simp [processRelay_channels]

theorem processHangupSignal_channels (env : Env σ) (c : ConnID)
    (msg : RTMTypeWebRTC) (s : State σ) :
    (processHangupSignal env c msg s).2.channels = s.channels := by
  unfold processHangupSignal
  repeat' split
  all_goals first | rfl | simp [processTeardown_channels]

theorem processCallOffer_channels (env : Env σ) (c : ConnID) (ur : userRecord)
    (msg : RTMTypeWebRTC) (channel : Channel) (extra : Option String) (s : State σ) :
    (processCallOffer env c ur msg channel extra s).2.channels = s.channels := by
  unfold processCallOffer
  simp only []
  split <;> simp

theorem Registry.preserved_refl (r : Registry) : Registry.preserved r r := fun _ _ h => h

theorem Registry.preserved_of_eq {r r' : Registry} (h : r' = r) : Registry.preserved r r' := by
  subst h; exact Registry.preserved_refl _

theorem channelsGet_cons (r : Registry) (key k : String) (v : Option channelRecord) :
    channelsGet ((key, v) :: r) k = if k = key then some v else channelsGet r k := by
  unfold channelsGet
  by_cases h : k = key
  · subst h; simp [List.lookup]
  · have : (k == key) = false := by simpa using h
    simp [List.lookup, this, h]

theorem SetIfAbsent_preserved (key : String) (record : channelRecord) (s : State σ) :
    Registry.preserved s.channels (SetIfAbsent key record s).channels := by
  unfold SetIfAbsent
  split
  · next hnone =>
    intro k rec hk
    simp only [State.log_channels]
    rw [channelsGet_cons]
    split_ifs with h
    · subst h; rw [hnone] at hk; cases hk
    · exact hk
  · exact Registry.preserved_refl _

theorem upsertGroupCallback_channels (env : Env σ) (channelID group : String)
    (v : Option (Option channelRecord)) (s : State σ) :
    (upsertGroupCallback env channelID group v s).2.channels = s.channels := by
  unfold upsertGroupCallback
  repeat' split
  all_goals rfl

theorem upsertGroupCallback_existing (env : Env σ) (channelID group : String)
    (record : channelRecord) (s : State σ) :
    (upsertGroupCallback env channelID group (some (some record)) s).1 = some record := rfl

theorem Upsert_preserved (env : Env σ) (channelID group : String) (s : State σ) :
    Registry.preserved s.channels
      (Upsert channelID (upsertGroupCallback env channelID group) s).2.channels := by
  unfold Upsert
  intro k rec hk
  have hc := upsertGroupCallback_channels env channelID group (channelsGet s.channels channelID)
    (s.log (Event.upsert channelID))
  rcases hcb : upsertGroupCallback env channelID group (channelsGet s.channels channelID)
    (s.log (Event.upsert channelID)) with ⟨res, s1⟩
  rw [hcb] at hc
  simp only [State.log_channels] at hc
  simp only [channelsGet_cons, hc]
  split_ifs with h
  · subst h
    rw [hk] at hcb
    have := upsertGroupCallback_existing env k group rec (s.log (Event.upsert k))
    rw [hcb] at this
    simp only at this
    rw [this]
  · exact hk

theorem processGroup_channels (env : Env σ) (c : ConnID) (msg : RTMTypeWebRTC)
    (s : State σ) :
    (processGroup env c msg s).2.channels = s.channels ∨
      ∃ channelID, (processGroup env c msg s).2.channels
        = (Upsert channelID (upsertGroupCallback env channelID msg.group) s).2.channels := by
  unfold processGroup
  repeat' split
  all_goals first
    | (left; rfl)
    | exact Or.inr ⟨_, (congrArg (fun p => p.2.channels) ‹Upsert _ _ _ = _›).symm⟩

theorem processGroup_preserved (env : Env σ) (c : ConnID)
    (msg : RTMTypeWebRTC) (s : State σ) :
    Registry.preserved s.channels (processGroup env c msg s).2.channels := by
  rcases processGroup_channels env c msg s with h | ⟨channelID, h⟩
  · exact Registry.preserved_of_eq h
  · rw [h]; exact Upsert_preserved env channelID msg.group s

theorem processCallInitiator_channels (env : Env σ) (c : ConnID) (ur : userRecord)
    (msg : RTMTypeWebRTC) (s : State σ) :
    (processCallInitiator env c ur msg s).2.channels = s.channels ∨
      ∃ (record : channelRecord) (s0 : State σ), s0.channels = s.channels ∧
        (processCallInitiator env c ur msg s).2.channels
          = (SetIfAbsent record.channel.id record s0).channels := by
  unfold processCallInitiator
  simp only []
  repeat' split
  all_goals first
    | (left; rfl)
    | (refine Or.inr ⟨⟨_, _⟩, _, ?_, rfl⟩; rfl)
    | (rw [processCallOffer_channels]; refine Or.inr ⟨⟨_, _⟩, _, ?_, rfl⟩; rfl)

theorem processCallInitiator_preserved (env : Env σ) (c : ConnID) (ur : userRecord)
    (msg : RTMTypeWebRTC) (s : State σ) :
    Registry.preserved s.channels (processCallInitiator env c ur msg s).2.channels := by
  rcases processCallInitiator_channels env c ur msg s with h | ⟨record, s0, h0, h⟩
  · exact Registry.preserved_of_eq h
  · rw [h, ← h0]; exact SetIfAbsent_preserved record.channel.id record s0

theorem processCall_preserved (env : Env σ) (c : ConnID)
    (msg : RTMTypeWebRTC) (s : State σ) :
    Registry.preserved s.channels (processCall env c msg s).2.channels := by
  unfold processCall
  repeat' split
  all_goals first
    | exact Registry.preserved_refl _
    | exact processCallInitiator_preserved _ _ _ _ _
    | exact Registry.preserved_of_eq (processCallResponder_channels _ _ _ _ _)

/-! ## The engine: traces, Group and Call initiator -/

theorem sends_append (a b : List Event) : sends (a ++ b) = sends a ++ sends b := by
  induction a with
  | nil => rfl
  | cons e t ih => cases e <;> simp [sends, ih]

theorem sends_map_send (l : List ConnID) (p : Payload) :
    sends (l.map (fun k => Event.send k p)) = l.map (fun k => (k, p)) := by
  induction l with
  | nil => rfl
  | cons k t ih => simp [sends, ih]

@[simp] theorem SetIfAbsent_ext (key : String) (record : channelRecord) (s : State σ) :
    (SetIfAbsent key record s).ext = s.ext := by
  unfold SetIfAbsent; split <;> rfl

@[simp] theorem SetIfAbsent_trace (key : String) (record : channelRecord) (s : State σ) :
    (SetIfAbsent key record s).trace = s.trace ++ [Event.setIfAbsent key record] := by
  unfold SetIfAbsent; split <;> rfl

theorem Upsert_group_sends (env : Env σ) (channelID group : String) (s : State σ) :
    sends (Upsert channelID (upsertGroupCallback env channelID group) s).2.trace
      = sends s.trace := by
  unfold Upsert upsertGroupCallback
  rcases hget : channelsGet s.channels channelID with _ | _ | record
  all_goals simp only []
  · rcases hk : env.CreateKnownChannel (s.log (Event.upsert channelID)).ext channelID group
      with ⟨_ | ch, e1⟩ <;> simp [sends_append, sends]
  · rcases hk : env.CreateKnownChannel (s.log (Event.upsert channelID)).ext channelID group
      with ⟨_ | ch, e1⟩ <;> simp [sends_append, sends]
  · simp [sends_append, sends]

theorem Upsert_group_id (env : Env σ) (channelID group : String) (s : State σ)
    (record : channelRecord)
    (hwf : Registry.keyed s.channels)
    (hknown : ∀ ext id g ch ext1, env.CreateKnownChannel ext id g = (Except.ok ch, ext1) → ch.id = id)
    (h : (Upsert channelID (upsertGroupCallback env channelID group) s).1 = some record) :
    record.channel.id = channelID := by
  unfold Upsert upsertGroupCallback at h
  cases hget : channelsGet s.channels channelID with
  | none =>
    rw [hget] at h
    simp only at h
    rcases hk : env.CreateKnownChannel (s.log (Event.upsert channelID)).ext channelID group with ⟨r, e1⟩
    rw [hk] at h
    cases r with
    | error e => simp at h
    | ok ch =>
      simp at h
      rw [← h]
      exact hknown _ _ _ _ _ hk
  | some v =>
    cases v with
    | none =>
      rw [hget] at h
      simp only at h
      rcases hk : env.CreateKnownChannel (s.log (Event.upsert channelID)).ext channelID group with ⟨r, e1⟩
      rw [hk] at h
      cases r with
      | error e => simp at h
      | ok ch =>
        simp at h
        rw [← h]
        exact hknown _ _ _ _ _ hk
    | some r =>
      rw [hget] at h
      simp at h
      rw [← h]
      exact hwf _ _ hget

theorem processGroup_ok (env : Env σ) (c : ConnID) (msg : RTMTypeWebRTC) (s : State σ)
    (ur : userRecord) (channelID : String) (record : channelRecord) (s1 : State σ) (ext2 : σ)
    (extra : String)
    (hsub : msg.subtype = env.RTMSubtypeNameWebRTCGroup)
    (hb : env.Bound s.ext c = some ur)
    (htarget : msg.target ≠ "") (hgroup : msg.target = msg.group)
    (hstate : msg.state ≠ "") (hsource : msg.source = "")
    (hid : env.CreateNamedGroupChannelID s.ext msg.group = Except.ok channelID)
    (hup : Upsert channelID (upsertGroupCallback env channelID msg.group) s = (some record, s1))
    (hadd : env.Add s1.ext record.channel ur.id c = (none, ext2))
    (hdata : env.MarshalIndent
      { group := some { group := msg.group, members := env.Connections ext2 record.channel },
        pipeline := env.Pipeline ext2 record.channel } = Except.ok extra) :
    processWebRTCMessage env c msg s =
      (Result.nil,
       Send c (Payload.reply
         { type := env.RTMTypeNameWebRTC
           subtype := env.RTMSubtypeNameWebRTCChannel
           replyTo := msg.id
           channel := record.channel.id
           hash := env.EncodeToString
             (computeWebRTCChannelHash env.hmac msg.type ur.id msg.group record.channel.id)
           data := some extra
           version := currentWebRTCPayloadVersion })
         { (s1.log (Event.add record.channel ur.id c)) with ext := ext2 }) := by
  unfold processWebRTCMessage processGroup
  simp only [minimalWebRTCPayloadVersion, Nat.not_lt_zero, if_false, hsub, if_true, hb,
    htarget, hgroup, hstate, hsource, hid, hup, hadd, hdata, ne_eq, not_true_eq_false]
  have hg : msg.group ≠ "" := hgroup ▸ htarget
  simp only [hg, if_false]

theorem processCallOffer_ok (env : Env σ) (c : ConnID) (ur : userRecord)
    (msg : RTMTypeWebRTC) (channel : Channel) (extra : Option String) (s : State σ)
    (connections : List ConnID)
    (hlookup : env.LookupConnectionsByUserID s.ext msg.target = some connections) :
    processCallOffer env c ur msg channel extra s =
      (Result.nil,
       sendAll connections
         (Payload.webrtc
           { msg with
             id := 0
             source := ur.id
             channel := channel.id
             hash := env.EncodeToString
               (computeWebRTCChannelHash env.hmac msg.type ur.id msg.target channel.id)
             data := extra })
         (Send c (Payload.reply
           { type := env.RTMTypeNameWebRTC
             subtype := env.RTMSubtypeNameWebRTCChannel
             replyTo := msg.id
             channel := channel.id
             hash := env.EncodeToString
               (computeWebRTCChannelHash env.hmac msg.type ur.id msg.target channel.id)
             version := currentWebRTCPayloadVersion
             data := extra }) s)) := by
  unfold processCallOffer
  simp only [Send_ext, hlookup]

theorem processCallInitiator_ok (env : Env σ) (c : ConnID) (msg : RTMTypeWebRTC) (s : State σ)
    (ur : userRecord) (channel : Channel) (ext1 ext2 : σ) (extra : Option String)
    (connections : List ConnID)
    (hsub : msg.subtype = env.RTMSubtypeNameWebRTCCall)
    (hne : env.RTMSubtypeNameWebRTCCall ≠ env.RTMSubtypeNameWebRTCGroup)
    (hinit : msg.initiator = true)
    (hb : env.Bound s.ext c = some ur)
    (htarget : msg.target ≠ "") (hself : msg.target ≠ ur.id)
    (hstate : msg.state ≠ "") (hsource : msg.source = "")
    (hchannel : msg.channel = "") (hhash : msg.hash = "") (hdata : msg.data = none)
    (hcreate : env.CreateRandomChannel s.ext = (Except.ok channel, ext1))
    (hadd : env.Add ext1 channel ur.id c = (none, ext2))
    (hextra : (env.Pipeline ext2 channel = none ∧ extra = none) ∨
      ∃ pipeline encoded, env.Pipeline ext2 channel = some pipeline ∧
        env.MarshalIndent { group := none, pipeline := some pipeline } = Except.ok encoded ∧
        extra = some encoded)
    (hlookup : env.LookupConnectionsByUserID ext2 msg.target = some connections) :
    processWebRTCMessage env c msg s =
      (Result.nil,
       sendAll connections
         (Payload.webrtc
           { msg with
             id := 0
             source := ur.id
             channel := channel.id
             hash := env.EncodeToString
               (computeWebRTCChannelHash env.hmac msg.type ur.id msg.target channel.id)
             data := extra })
         (Send c (Payload.reply
           { type := env.RTMTypeNameWebRTC
             subtype := env.RTMSubtypeNameWebRTCChannel
             replyTo := msg.id
             channel := channel.id
             hash := env.EncodeToString
               (computeWebRTCChannelHash env.hmac msg.type ur.id msg.target channel.id)
             version := currentWebRTCPayloadVersion
             data := extra })
           (SetIfAbsent channel.id { when := env.Now ext2, channel := channel }
             { ((s.log Event.createRandomChannel).log (Event.add channel ur.id c)) with
                 ext := ext2 }))) := by
  unfold processWebRTCMessage processCall processCallInitiator
  simp only [minimalWebRTCPayloadVersion, Nat.not_lt_zero, if_false, hsub, hne, if_true, hb,
    htarget, hself, hstate, hsource, hinit, hchannel, hhash, hdata, hcreate, hadd, ne_eq,
    not_true_eq_false, or_self, SetIfAbsent_ext]
  rcases hextra with ⟨hp, he⟩ | ⟨pipeline, encoded, hp, hm, he⟩
  · subst he
    simp only [hp]
    rw [processCallOffer_ok env c ur msg channel _ _ connections]
    · simp only [hsub, hinit]
    · simpa using hlookup
  · subst he
    simp only [hp, hm]
    rw [processCallOffer_ok env c ur msg channel _ _ connections]
    · simp only [hsub, hinit]
    · simpa using hlookup

theorem A_lt_g1 : "A" < "g1" := by
  rw [String.lt_iff_toList_lt]; decide

theorem demoEnv_known (ext : Directory) (id g : String) (ch : Channel) (ext1 : Directory)
    (h : demoEnv.CreateKnownChannel ext id g = (Except.ok ch, ext1)) : ch.id = id := by
  simp only [demoEnv, Prod.mk.injEq, Except.ok.injEq] at h
  rw [← h.1]

theorem keyed_nil : Registry.keyed [] := by
  intro k record h
  simp [channelsGet] at h

theorem Upsert_group_channels (env : Env σ) (channelID group : String) (s : State σ) :
    (Upsert channelID (upsertGroupCallback env channelID group) s).2.channels
      = (channelID, (Upsert channelID (upsertGroupCallback env channelID group) s).1)
          :: s.channels := by
  have hc := upsertGroupCallback_channels env channelID group (channelsGet s.channels channelID)
    (s.log (Event.upsert channelID))
  unfold Upsert
  rcases hcb : upsertGroupCallback env channelID group (channelsGet s.channels channelID)
    (s.log (Event.upsert channelID)) with ⟨res, s1⟩
  rw [hcb] at hc
  simpa using hc

theorem Upsert_keyed (env : Env σ) (channelID group : String) (s : State σ)
    (hwf : Registry.keyed s.channels)
    (hknown : ∀ ext id g ch ext1,
      env.CreateKnownChannel ext id g = (Except.ok ch, ext1) → ch.id = id) :
    Registry.keyed (Upsert channelID (upsertGroupCallback env channelID group) s).2.channels := by
  intro k record hk
  rw [Upsert_group_channels, channelsGet_cons] at hk
  split_ifs at hk with h
  · subst h
    exact Upsert_group_id env k group s record hwf hknown (Option.some.inj hk)
  · exact hwf k record hk

theorem SetIfAbsent_keyed (record : channelRecord) (s : State σ)
    (hwf : Registry.keyed s.channels) :
    Registry.keyed (SetIfAbsent record.channel.id record s).channels := by
  unfold SetIfAbsent
  split
  · intro k r hk
    simp only [State.log_channels] at hk
    rw [channelsGet_cons] at hk
    split_ifs at hk with h
    · subst h
      simp only [Option.some.injEq] at hk
      rw [← hk]
    · exact hwf k r hk
  · exact hwf

/-- The engine keeps the registry keyed: every record stays under the id of its
channel, provided `CreateKnownChannel` gives the channel the id it was asked
for. -/
theorem processWebRTCMessage_keyed (env : Env σ) (c : ConnID) (msg : RTMTypeWebRTC)
    (s : State σ) (hwf : Registry.keyed s.channels)
    (hknown : ∀ ext id g ch ext1,
      env.CreateKnownChannel ext id g = (Except.ok ch, ext1) → ch.id = id) :
    Registry.keyed (processWebRTCMessage env c msg s).2.channels := by
  unfold processWebRTCMessage
  split_ifs
  · exact hwf
  · rcases processGroup_channels env c msg s with h | ⟨channelID, h⟩
    · rw [h]; exact hwf
    · rw [h]; exact Upsert_keyed env channelID msg.group s hwf hknown
  · unfold processCall
    repeat' split
    all_goals first
      | exact hwf
      | (rw [processCallResponder_channels]; exact hwf)
      | skip
    rcases processCallInitiator_channels env c _ msg s with h | ⟨record, s0, h0, h⟩
    · rw [h]; exact hwf
    · rw [h]; exact SetIfAbsent_keyed record s0 (h0 ▸ hwf)
  · rw [processHangupSignal_channels]; exact hwf
  · exact hwf
/-! ## The engine: validation -/

/-- C4: whatever the subtype, when the connection is unbound, or the source is
not empty, or the state is empty, `processWebRTCMessage` returns a `BadMessage`
error correlated to the request id of the message and leaves the whole state
as it was: nothing is sent, the registry is neither read nor changed. -/
theorem processWebRTCMessage_prevalidation (env : Env σ) (c : ConnID) (msg : RTMTypeWebRTC)
    (s : State σ)
    (h : env.Bound s.ext c = none ∨ msg.source ≠ "" ∨ msg.state = "") :
    ∃ text, processWebRTCMessage env c msg s
      = (NewRTMTypeError ErrorID.BadMessage text msg.id, s) := by
  unfold processWebRTCMessage processGroup processCall processHangupSignal
  simp only [minimalWebRTCPayloadVersion, Nat.not_lt_zero, if_false]
  cases hb : env.Bound s.ext c with
  | none => simp only []; split_ifs <;> exact ⟨_, rfl⟩
  | some ur =>
    simp only [hb, false_or] at h
    simp only []
    split_ifs <;> first | exact ⟨_, rfl⟩ | (exfalso; tauto)

/-- Witness of C4: a Signal message on connection 9, which is not bound. -/
theorem processWebRTCMessage_prevalidation_witness :
    ∃ text, processWebRTCMessage demoEnv 9 (demoMsg "webrtc_signal" 7) demoState
      = (NewRTMTypeError ErrorID.BadMessage text 7, demoState) :=
  processWebRTCMessage_prevalidation demoEnv 9 (demoMsg "webrtc_signal" 7) demoState
    (Or.inl (by decide))

/-- C5 fails on the Call initiator branch: the request has id 7, its target has
no connection, and the `NoSessionForUser` error that `processWebRTCMessage`
builds carries the correlation id 0, because `msg.ID` was reset before. -/
theorem processWebRTCMessage_offer_error_id :
    (demoOfferMsg "C").id = 7 ∧
    (processWebRTCMessage demoEnv 1 (demoOfferMsg "C") demoState).1
      = NewRTMTypeError ErrorID.NoSessionForUser "target not found" 0 := by
  decide

/-- C8: a channel id that maps to a non-nil record before
`processWebRTCMessage` maps to the same record afterwards, for every registry,
connection and message. -/
theorem processWebRTCMessage_registry_preserved (env : Env σ) (c : ConnID)
    (msg : RTMTypeWebRTC) (s : State σ) (k : String) (record : channelRecord)
    (h : channelsGet s.channels k = some (some record)) :
    channelsGet (processWebRTCMessage env c msg s).2.channels k = some (some record) := by
  have key : Registry.preserved s.channels (processWebRTCMessage env c msg s).2.channels := by
    unfold processWebRTCMessage
    split_ifs
    · exact Registry.preserved_refl _
    · exact processGroup_preserved _ _ _ _
    · exact processCall_preserved _ _ _ _
    · exact Registry.preserved_of_eq (processHangupSignal_channels _ _ _ _)
    · exact Registry.preserved_refl _
  exact key k record h

/-- Witness of C8: user `B` joins the group `g1` whose channel is registered;
the record of `group-g1` stays. -/
theorem processWebRTCMessage_registry_preserved_witness :
    channelsGet (processWebRTCMessage demoEnv 2 demoGroupMsg demoJoined).2.channels "group-g1"
      = some (some { when := 1, channel := { ptr := 0, id := "group-g1" } }) :=
  processWebRTCMessage_registry_preserved demoEnv 2 demoGroupMsg demoJoined "group-g1"
    { when := 1, channel := { ptr := 0, id := "group-g1" } } (by decide)

/-- C9: a Call message with `initiator = true` on a bound connection whose
target is empty or the sender itself, or whose channel, hash or data is not
empty, gets `BadMessage` correlated to its request id, and the state is left
as it was: no channel is created or registered, nothing is sent.  (It holds
whatever the state and source fields are.) -/
theorem processWebRTCMessage_offer_preconditions (env : Env σ) (c : ConnID)
    (msg : RTMTypeWebRTC) (s : State σ) (ur : userRecord)
    (hsub : msg.subtype = env.RTMSubtypeNameWebRTCCall)
    (hne : env.RTMSubtypeNameWebRTCCall ≠ env.RTMSubtypeNameWebRTCGroup)
    (hinit : msg.initiator = true)
    (hb : env.Bound s.ext c = some ur)
    (h : msg.target = "" ∨ msg.target = ur.id ∨ msg.channel ≠ "" ∨ msg.hash ≠ ""
      ∨ msg.data ≠ none) :
    ∃ text, processWebRTCMessage env c msg s
      = (NewRTMTypeError ErrorID.BadMessage text msg.id, s) := by
  unfold processWebRTCMessage processCall processCallInitiator
  simp only [minimalWebRTCPayloadVersion, Nat.not_lt_zero, if_false, hsub, hne, hb, hinit,
    if_true]
  split_ifs <;> first | exact ⟨_, rfl⟩ | (exfalso; tauto)

/-- Witness of C9: user `A` offers a call to itself. -/
theorem processWebRTCMessage_offer_preconditions_witness :
    ∃ text, processWebRTCMessage demoEnv 1 (demoOfferMsg "A") demoState
      = (NewRTMTypeError ErrorID.BadMessage text (demoOfferMsg "A").id, demoState) :=
  processWebRTCMessage_offer_preconditions demoEnv 1 (demoOfferMsg "A") demoState
    { id := "A" } rfl (by decide) rfl (by decide) (Or.inr (Or.inl rfl))

/-! ## The engine: Group -/

/-- C6: a Group message that is processed successfully (bound connection `c`,
target = group not empty, state not empty, source empty, channel id resolved,
get-or-create and membership add succeeded, data encoded) makes the engine
send exactly one message, to `c` itself: a reply with `ReplyTo` the request
id, the resolved channel id, the current payload version and the encoded data
(group and member list after the add); the result is nil.  The registry is
keyed and `CreateKnownChannel` gives the channel the id it was asked for. -/
theorem processWebRTCMessage_group_reply (env : Env σ) (c : ConnID) (msg : RTMTypeWebRTC)
    (s : State σ) (ur : userRecord) (channelID : String) (record : channelRecord)
    (s1 : State σ) (ext2 : σ) (extra : String)
    (hwf : Registry.keyed s.channels)
    (hknown : ∀ ext id g ch ext1,
      env.CreateKnownChannel ext id g = (Except.ok ch, ext1) → ch.id = id)
    (hsub : msg.subtype = env.RTMSubtypeNameWebRTCGroup)
    (hb : env.Bound s.ext c = some ur)
    (htarget : msg.target ≠ "") (hgroup : msg.target = msg.group)
    (hstate : msg.state ≠ "") (hsource : msg.source = "")
    (hid : env.CreateNamedGroupChannelID s.ext msg.group = Except.ok channelID)
    (hup : Upsert channelID (upsertGroupCallback env channelID msg.group) s = (some record, s1))
    (hadd : env.Add s1.ext record.channel ur.id c = (none, ext2))
    (hdata : env.MarshalIndent
      { group := some { group := msg.group, members := env.Connections ext2 record.channel },
        pipeline := env.Pipeline ext2 record.channel } = Except.ok extra) :
    (processWebRTCMessage env c msg s).1 = Result.nil ∧
    ∃ reply : RTMTypeWebRTCReply,
      sends (processWebRTCMessage env c msg s).2.trace
        = sends s.trace ++ [(c, Payload.reply reply)] ∧
      reply.replyTo = msg.id ∧ reply.channel = channelID ∧
      reply.version = currentWebRTCPayloadVersion ∧ reply.data = some extra := by
  rw [processGroup_ok env c msg s ur channelID record s1 ext2 extra hsub hb htarget hgroup
    hstate hsource hid hup hadd hdata]
  refine ⟨rfl, ?reply, ?hsends, ?hreply, ?hchannel, ?hversion, ?hdata⟩
  case hsends =>
    have hs := Upsert_group_sends env channelID msg.group s
    rw [hup] at hs
    simp only [Send_trace, State.log_trace, sends_append, hs]
    simp only [sends, List.append_nil]
    exact rfl
  case hreply => rfl
  case hversion => rfl
  case hdata => rfl
  case hchannel =>
    exact Upsert_group_id env channelID msg.group s record hwf hknown (by rw [hup])

/-- Witness of C6: user `A` joins the group `g1` on connection 1, with an empty
registry; the only message sent is the reply to connection 1. -/
theorem processWebRTCMessage_group_reply_witness :
    (processWebRTCMessage demoEnv 1 demoGroupMsg demoState).1 = Result.nil ∧
    ∃ reply : RTMTypeWebRTCReply,
      sends (processWebRTCMessage demoEnv 1 demoGroupMsg demoState).2.trace
        = sends demoState.trace ++ [(1, Payload.reply reply)] ∧
      reply.replyTo = 7 ∧ reply.channel = "group-g1" ∧
      reply.version = currentWebRTCPayloadVersion ∧
      reply.data = some "group=g1 members=A" :=
  processWebRTCMessage_group_reply demoEnv 1 demoGroupMsg demoState { id := "A" } "group-g1"
    { when := 1, channel := { ptr := 0, id := "group-g1" } }
    { channels := [("group-g1", some { when := 1, channel := { ptr := 0, id := "group-g1" } })],
      ext := { demoDirectory with fresh := 1 },
      trace := [Event.upsert "group-g1", Event.createKnownChannel "group-g1" "g1"] }
    { demoDirectory with fresh := 1, members := [("group-g1", "A", 1)] }
    "group=g1 members=A" keyed_nil demoEnv_known
    rfl rfl (by decide) rfl (by decide) rfl rfl rfl rfl rfl

/-- C7, as stated, fails: user `A` joins the group `g1` with a message of type
`webrtc` and subtype `webrtc_group`; the hash of the reply is not the encoded
hash over `(subtype, A, g1, channel)`. -/
theorem processWebRTCMessage_group_hash_not_subtype :
    (processWebRTCMessage demoEnv 1 demoGroupMsg demoState).1 = Result.nil ∧
    ∃ reply : RTMTypeWebRTCReply,
      sends (processWebRTCMessage demoEnv 1 demoGroupMsg demoState).2.trace
        = [(1, Payload.reply reply)] ∧
      reply.hash ≠ demoEnv.EncodeToString
        (computeWebRTCChannelHash demoEnv.hmac demoGroupMsg.subtype "A" "g1" reply.channel) := by
  rw [processGroup_ok demoEnv 1 demoGroupMsg demoState { id := "A" } "group-g1"
    { when := 1, channel := { ptr := 0, id := "group-g1" } }
    { channels := [("group-g1", some { when := 1, channel := { ptr := 0, id := "group-g1" } })],
      ext := { demoDirectory with fresh := 1 },
      trace := [Event.upsert "group-g1", Event.createKnownChannel "group-g1" "g1"] }
    { demoDirectory with fresh := 1, members := [("group-g1", "A", 1)] }
    "group=g1 members=A" rfl rfl (by decide) rfl (by decide) rfl rfl rfl rfl rfl]
  refine ⟨rfl, ?reply, ?hsends, ?hhash⟩
  case hsends => exact rfl
  case hhash =>
    show demoEncode (computeWebRTCChannelHash demoHmac "webrtc" "A" "g1" "group-g1")
      ≠ demoEncode (computeWebRTCChannelHash demoHmac "webrtc_group" "A" "g1" "group-g1")
    unfold computeWebRTCChannelHash
    rw [if_pos A_lt_g1, if_pos A_lt_g1]
    decide

/-- C7, amended: for a successfully processed Group message of user `A` for
group `g`, the hash of the reply is the encoded hash over
`(msg.Type, A, g, channel)`, where `msg.Type` is the type field of the envelope
(not its subtype) and `channel` is the channel id of the same reply. -/
theorem processWebRTCMessage_group_hash (env : Env σ) (c : ConnID) (msg : RTMTypeWebRTC)
    (s : State σ) (ur : userRecord) (channelID : String) (record : channelRecord)
    (s1 : State σ) (ext2 : σ) (extra : String)
    (hsub : msg.subtype = env.RTMSubtypeNameWebRTCGroup)
    (hb : env.Bound s.ext c = some ur)
    (htarget : msg.target ≠ "") (hgroup : msg.target = msg.group)
    (hstate : msg.state ≠ "") (hsource : msg.source = "")
    (hid : env.CreateNamedGroupChannelID s.ext msg.group = Except.ok channelID)
    (hup : Upsert channelID (upsertGroupCallback env channelID msg.group) s = (some record, s1))
    (hadd : env.Add s1.ext record.channel ur.id c = (none, ext2))
    (hdata : env.MarshalIndent
      { group := some { group := msg.group, members := env.Connections ext2 record.channel },
        pipeline := env.Pipeline ext2 record.channel } = Except.ok extra) :
    ∃ reply : RTMTypeWebRTCReply,
      sends (processWebRTCMessage env c msg s).2.trace
        = sends s.trace ++ [(c, Payload.reply reply)] ∧
      reply.hash = env.EncodeToString
        (computeWebRTCChannelHash env.hmac msg.type ur.id msg.group reply.channel) := by
  rw [processGroup_ok env c msg s ur channelID record s1 ext2 extra hsub hb htarget hgroup
    hstate hsource hid hup hadd hdata]
  refine ⟨?reply, ?hsends, ?hhash⟩
  case hsends =>
    have hs := Upsert_group_sends env channelID msg.group s
    rw [hup] at hs
    simp only [Send_trace, State.log_trace, sends_append, hs]
    simp only [sends, List.append_nil]
    exact rfl
  case hhash => rfl

/-- Witness of C7 amended: user `B` joins the group `g1` on connection 2, the
channel being registered already. -/
theorem processWebRTCMessage_group_hash_witness :
    ∃ reply : RTMTypeWebRTCReply,
      sends (processWebRTCMessage demoEnv 2 demoGroupMsg demoJoined).2.trace
        = sends demoJoined.trace ++ [(2, Payload.reply reply)] ∧
      reply.hash = demoEncode
        (computeWebRTCChannelHash demoHmac "webrtc" "B" "g1" reply.channel) :=
  processWebRTCMessage_group_hash demoEnv 2 demoGroupMsg demoJoined { id := "B" } "group-g1"
    { when := 1, channel := { ptr := 0, id := "group-g1" } }
    { channels := ("group-g1", some { when := 1, channel := { ptr := 0, id := "group-g1" } })
        :: demoJoined.channels,
      ext := demoJoined.ext,
      trace := [Event.upsert "group-g1"] }
    { demoJoined.ext with members := [("group-g1", "B", 2), ("group-g1", "A", 1)] }
    "group=g1 members=B,A"
    rfl rfl (by decide) rfl (by decide) rfl rfl rfl rfl rfl

/-! ## The engine: Call initiator -/

/-- C10: a valid Call offer of user `A` to target `T` (channel created, `A`
added, pipeline descriptor encoded if there is one) for which the directory
returns the connections `k1..kn` makes the engine send first the reply to
`A`'s connection and then, to each `ki` in turn and to nobody else, the
message with request id 0, source `A`, and the channel id and hash of the
reply, the hash being the encoded hash over `(msg.Type, A, T, channel)`; the
result is nil. -/
theorem processWebRTCMessage_offer_fanout (env : Env σ) (c : ConnID) (msg : RTMTypeWebRTC) (s : State σ)
    (ur : userRecord) (channel : Channel) (ext1 ext2 : σ) (extra : Option String)
    (connections : List ConnID)
    (hsub : msg.subtype = env.RTMSubtypeNameWebRTCCall)
    (hne : env.RTMSubtypeNameWebRTCCall ≠ env.RTMSubtypeNameWebRTCGroup)
    (hinit : msg.initiator = true)
    (hb : env.Bound s.ext c = some ur)
    (htarget : msg.target ≠ "") (hself : msg.target ≠ ur.id)
    (hstate : msg.state ≠ "") (hsource : msg.source = "")
    (hchannel : msg.channel = "") (hhash : msg.hash = "") (hdata : msg.data = none)
    (hcreate : env.CreateRandomChannel s.ext = (Except.ok channel, ext1))
    (hadd : env.Add ext1 channel ur.id c = (none, ext2))
    (hextra : (env.Pipeline ext2 channel = none ∧ extra = none) ∨
      ∃ pipeline encoded, env.Pipeline ext2 channel = some pipeline ∧
        env.MarshalIndent { group := none, pipeline := some pipeline } = Except.ok encoded ∧
        extra = some encoded)
    (hlookup : env.LookupConnectionsByUserID ext2 msg.target = some connections) :
    (processWebRTCMessage env c msg s).1 = Result.nil ∧
    sends (processWebRTCMessage env c msg s).2.trace
      = sends s.trace ++
        (c, Payload.reply
          { type := env.RTMTypeNameWebRTC
            subtype := env.RTMSubtypeNameWebRTCChannel
            replyTo := msg.id
            channel := channel.id
            hash := env.EncodeToString
              (computeWebRTCChannelHash env.hmac msg.type ur.id msg.target channel.id)
            version := currentWebRTCPayloadVersion
            data := extra }) ::
        connections.map (fun k =>
          (k, Payload.webrtc
            { msg with
              id := 0
              source := ur.id
              channel := channel.id
              hash := env.EncodeToString
                (computeWebRTCChannelHash env.hmac msg.type ur.id msg.target channel.id)
              data := extra })) := by
  rw [processCallInitiator_ok env c msg s ur channel ext1 ext2 extra connections hsub hne hinit
    hb htarget hself hstate hsource hchannel hhash hdata hcreate hadd hextra hlookup]
  refine ⟨rfl, ?_⟩
  simp only [sendAll_trace, Send_trace, SetIfAbsent_trace, State.log_trace, sends_append,
    sends_map_send]
  simp [sends]


/-- Witness of C10: user `A` on connection 1 offers a call to user `B`, who has
the connections 2 and 3. -/
theorem processWebRTCMessage_offer_fanout_witness :
    (processWebRTCMessage demoEnv 1 (demoOfferMsg "B") demoState).1 = Result.nil ∧
    sends (processWebRTCMessage demoEnv 1 (demoOfferMsg "B") demoState).2.trace
      = sends demoState.trace ++
        (1, Payload.reply
          { type := "webrtc"
            subtype := "webrtc_channel"
            replyTo := 7
            channel := "r"
            hash := demoEncode (computeWebRTCChannelHash demoHmac "webrtc" "A" "B" "r")
            version := currentWebRTCPayloadVersion
            data := none }) ::
        [2, 3].map (fun k =>
          (k, Payload.webrtc
            { demoOfferMsg "B" with
              id := 0
              source := "A"
              channel := "r"
              hash := demoEncode (computeWebRTCChannelHash demoHmac "webrtc" "A" "B" "r")
              data := none })) :=
  processWebRTCMessage_offer_fanout demoEnv 1 (demoOfferMsg "B") demoState { id := "A" } { ptr := 0, id := "r" }
    { demoDirectory with fresh := 1 }
    { demoDirectory with fresh := 1, members := [("r", "A", 1)] } none [2, 3]
    rfl (by decide) rfl rfl (by decide) (by decide) (by decide) rfl rfl rfl rfl rfl rfl
    (Or.inl ⟨rfl, rfl⟩) rfl

/-! ## The engine: Call responder, reductions -/

theorem processCallForward_found (env : Env σ) (ur : userRecord) (channel : Channel)
    (msg : RTMTypeWebRTC) (s : State σ) (k : ConnID)
    (h : env.Get s.ext channel msg.target = some k) :
    processCallForward env ur channel msg s
      = (Result.nil, Send k (Payload.webrtc (forwardedMsg ur msg)) s) := by
  unfold processCallForward forwardedMsg
  simp only [h]

theorem processCallForward_missing (env : Env σ) (ur : userRecord) (channel : Channel)
    (msg : RTMTypeWebRTC) (s : State σ)
    (h : env.Get s.ext channel msg.target = none) :
    processCallForward env ur channel msg s
      = (NewRTMTypeError ErrorID.NoSessionForUser "target not found" 0, s) := by
  unfold processCallForward
  simp only [h]

theorem processCallNotify_busy (env : Env σ) (c : ConnID) (ur : userRecord)
    (channel : Channel) (extra : RTMDataWebRTCAccept) (msg : RTMTypeWebRTC) (s : State σ)
    (connections : List ConnID)
    (hlookup : env.LookupConnectionsByUserID s.ext ur.id = some connections)
    (haccept : extra.accept = false) (hreason : extra.reason = "reject_busy")
    (hmany : connections.length > 1) :
    processCallNotify env c ur channel extra msg s = (Result.nil, s) := by
  unfold processCallNotify
  simp [hlookup, haccept, hreason, hmany]

theorem processCallNotify_others (env : Env σ) (c : ConnID) (ur : userRecord)
    (channel : Channel) (extra : RTMDataWebRTCAccept) (msg : RTMTypeWebRTC) (s : State σ)
    (connections : List ConnID)
    (hlookup : env.LookupConnectionsByUserID s.ext ur.id = some connections)
    (hnotbusy : ¬ (extra.accept = false ∧ extra.reason = "reject_busy"
      ∧ connections.length > 1)) :
    processCallNotify env c ur channel extra msg s
      = processCallForward env ur channel msg
          (sendOthers connections c (Payload.webrtc (clearedMsg env msg)) s) := by
  unfold processCallNotify clearedMsg
  have h : ¬ ((!extra.accept) = true ∧ extra.reason = "reject_busy"
      ∧ connections.length > 1) := by
    simpa using hnotbusy
  simp only [hlookup, h, if_false]

theorem processCallNotify_unlisted (env : Env σ) (c : ConnID) (ur : userRecord)
    (channel : Channel) (extra : RTMDataWebRTCAccept) (msg : RTMTypeWebRTC) (s : State σ)
    (hlookup : env.LookupConnectionsByUserID s.ext ur.id = none) :
    processCallNotify env c ur channel extra msg s
      = processCallForward env ur channel msg s := by
  unfold processCallNotify
  simp only [hlookup]

theorem responder_group_reject (env : Env σ) (c : ConnID) (msg : RTMTypeWebRTC) (s : State σ)
    (ur : userRecord) (record : channelRecord) (extra : RTMDataWebRTCAccept)
    (hv : CallResponderValidated env c msg s ur record extra)
    (hgroup : msg.group ≠ "") (haccept : extra.accept = false) :
    processWebRTCMessage env c msg s
      = (NewRTMTypeError ErrorID.BadMessage "accept required for group call" msg.id,
         s.log (Event.get msg.channel)) := by
  unfold processWebRTCMessage processCall processCallResponder
  simp [minimalWebRTCPayloadVersion, hv.subtype, hv.notGroup, hv.responder, hv.bound,
    hv.target, hv.notSelf, hv.state, hv.source, hv.channel, hv.hash, hv.data, hv.registered,
    hv.checked, hv.decoded, hgroup, haccept]

theorem responder_group_accept (env : Env σ) (c : ConnID) (msg : RTMTypeWebRTC) (s : State σ)
    (ur : userRecord) (record : channelRecord) (extra : RTMDataWebRTCAccept)
    (hv : CallResponderValidated env c msg s ur record extra)
    (hgroup : msg.group ≠ "") (haccept : extra.accept = true) :
    processWebRTCMessage env c msg s
      = processCallForward env ur record.channel
          { msg with
            hash := env.EncodeToString
              (computeWebRTCChannelHash env.hmac msg.type ur.id msg.target record.channel.id) }
          (s.log (Event.get msg.channel)) := by
  unfold processWebRTCMessage processCall processCallResponder
  simp [minimalWebRTCPayloadVersion, hv.subtype, hv.notGroup, hv.responder, hv.bound,
    hv.target, hv.notSelf, hv.state, hv.source, hv.channel, hv.hash, hv.data, hv.registered,
    hv.checked, hv.decoded, hgroup, haccept]

theorem responder_plain_accept (env : Env σ) (c : ConnID) (msg : RTMTypeWebRTC) (s : State σ)
    (ur : userRecord) (record : channelRecord) (extra : RTMDataWebRTCAccept) (ext2 : σ)
    (hv : CallResponderValidated env c msg s ur record extra)
    (hgroup : msg.group = "") (haccept : extra.accept = true)
    (hadd : env.Add s.ext record.channel ur.id c = (none, ext2)) :
    processWebRTCMessage env c msg s
      = processCallNotify env c ur record.channel extra msg
          { ((s.log (Event.get msg.channel)).log (Event.add record.channel ur.id c)) with
              ext := ext2 } := by
  unfold processWebRTCMessage processCall processCallResponder
  simp [minimalWebRTCPayloadVersion, hv.subtype, hv.notGroup, hv.responder, hv.bound,
    hv.target, hv.notSelf, hv.state, hv.source, hv.channel, hv.hash, hv.data, hv.registered,
    hv.checked, hv.decoded, hgroup, haccept, hadd]

theorem responder_plain_reject (env : Env σ) (c : ConnID) (msg : RTMTypeWebRTC) (s : State σ)
    (ur : userRecord) (record : channelRecord) (extra : RTMDataWebRTCAccept)
    (hv : CallResponderValidated env c msg s ur record extra)
    (hgroup : msg.group = "") (haccept : extra.accept = false) :
    processWebRTCMessage env c msg s
      = processCallNotify env c ur record.channel extra msg (s.log (Event.get msg.channel)) := by
  unfold processWebRTCMessage processCall processCallResponder
  simp [minimalWebRTCPayloadVersion, hv.subtype, hv.notGroup, hv.responder, hv.bound,
    hv.target, hv.notSelf, hv.state, hv.source, hv.channel, hv.hash, hv.data, hv.registered,
    hv.checked, hv.decoded, hgroup, haccept]
/-! ## The engine: Hangup and Signal, reductions -/

theorem hangupSignal_group (env : Env σ) (c : ConnID) (msg : RTMTypeWebRTC) (s : State σ)
    (ur : userRecord) (record : channelRecord)
    (hv : HangupSignalValidated env c msg s ur record)
    (hmode : msg.group ≠ "" ∧ msg.target = msg.group) :
    processWebRTCMessage env c msg s
      = processTeardown env ur record.channel none true msg (s.log (Event.get msg.channel)) := by
  unfold processWebRTCMessage processHangupSignal
  simp only [minimalWebRTCPayloadVersion, Nat.not_lt_zero, if_false, hv.notGroup, hv.notCall,
    hv.subtype, if_true, hv.bound, hv.state, hv.source, hv.channel, hv.hash, hv.data,
    hv.registered, hv.checked, ne_eq, not_true_eq_false, or_self, hmode, not_false_eq_true,
    and_self]

theorem hangupSignal_target (env : Env σ) (c : ConnID) (msg : RTMTypeWebRTC) (s : State σ)
    (ur : userRecord) (record : channelRecord)
    (hv : HangupSignalValidated env c msg s ur record)
    (hmode : ¬ (msg.group ≠ "" ∧ msg.target = msg.group)) (htarget : msg.target ≠ "") :
    processWebRTCMessage env c msg s
      = processTeardown env ur record.channel (env.Get s.ext record.channel msg.target)
          (env.Get s.ext record.channel msg.target).isSome msg
          (s.log (Event.get msg.channel)) := by
  unfold processWebRTCMessage processHangupSignal
  simp only [minimalWebRTCPayloadVersion, Nat.not_lt_zero, if_false, hv.notGroup, hv.notCall,
    hv.subtype, if_true, hv.bound, hv.state, hv.source, hv.channel, hv.hash, hv.data,
    hv.registered, hv.checked, ne_eq, not_true_eq_false, or_self, hmode, htarget,
    not_false_eq_true]

theorem hangupSignal_noTarget (env : Env σ) (c : ConnID) (msg : RTMTypeWebRTC) (s : State σ)
    (ur : userRecord) (record : channelRecord)
    (hv : HangupSignalValidated env c msg s ur record) (htarget : msg.target = "") :
    processWebRTCMessage env c msg s
      = processTeardown env ur record.channel none false msg
          (s.log (Event.get msg.channel)) := by
  unfold processWebRTCMessage processHangupSignal
  simp only [minimalWebRTCPayloadVersion, Nat.not_lt_zero, if_false, hv.notGroup, hv.notCall,
    hv.subtype, if_true, hv.bound, hv.state, hv.source, hv.channel, hv.hash, hv.data,
    hv.registered, hv.checked, ne_eq, not_true_eq_false, or_self, htarget,
    not_false_eq_true]
  rw [if_neg]
  rintro ⟨h1, h2⟩
  exact h1 h2.symm

theorem processRelay_forward (env : Env σ) (ur : userRecord) (channel : Channel)
    (tc : Option ConnID) (ok : Bool) (msg : RTMTypeWebRTC) (s : State σ)
    (h : ok = true ∨ tc ≠ none) :
    processRelay env ur channel tc ok msg s
      = (Result.ofError (env.Forward s.ext channel ur.id msg.target tc msg).1,
         { (s.log (Event.forward channel ur.id msg.target tc msg)) with
             ext := (env.Forward s.ext channel ur.id msg.target tc msg).2 }) := by
  unfold processRelay
  rw [if_pos h]
  rcases hf : env.Forward s.ext channel ur.id msg.target tc msg with ⟨_ | err, ext1⟩ <;> rfl

theorem processRelay_missing (env : Env σ) (ur : userRecord) (channel : Channel)
    (msg : RTMTypeWebRTC) (s : State σ) :
    processRelay env ur channel none false msg s
      = (NewRTMTypeError ErrorID.NoSessionForUser "target not found" msg.id, s) := by
  unfold processRelay
  simp

theorem processTeardown_signal (env : Env σ) (ur : userRecord) (channel : Channel)
    (tc : Option ConnID) (ok : Bool) (msg : RTMTypeWebRTC) (s : State σ)
    (h : msg.subtype ≠ env.RTMSubtypeNameWebRTCHangup) :
    processTeardown env ur channel tc ok msg s = processRelay env ur channel tc ok msg s := by
  unfold processTeardown
  rw [if_neg h]

theorem processTeardown_hangup_relay (env : Env σ) (ur : userRecord) (channel : Channel)
    (tc : Option ConnID) (msg : RTMTypeWebRTC) (s : State σ)
    (h : msg.subtype = env.RTMSubtypeNameWebRTCHangup) :
    processTeardown env ur channel tc true msg s
      = processRelay env ur channel tc true msg
          { (s.log (Event.remove channel ur.id)) with ext := env.Remove s.ext channel ur.id } := by
  unfold processTeardown
  rw [if_pos h]
  simp

theorem processTeardown_hangup_listed (env : Env σ) (ur : userRecord) (channel : Channel)
    (tc : Option ConnID) (msg : RTMTypeWebRTC) (s : State σ) (connections : List ConnID)
    (h : msg.subtype = env.RTMSubtypeNameWebRTCHangup)
    (hl : env.LookupConnectionsByUserID (env.Remove s.ext channel ur.id) msg.target
      = some connections) :
    processTeardown env ur channel tc false msg s
      = (Result.nil,
         sendAll connections (Payload.webrtc { msg with source := ur.id, id := 0 })
           { (s.log (Event.remove channel ur.id)) with
               ext := env.Remove s.ext channel ur.id }) := by
  unfold processTeardown
  rw [if_pos h]
  simp [hl]

theorem processTeardown_hangup_unlisted (env : Env σ) (ur : userRecord) (channel : Channel)
    (tc : Option ConnID) (msg : RTMTypeWebRTC) (s : State σ)
    (h : msg.subtype = env.RTMSubtypeNameWebRTCHangup)
    (hl : env.LookupConnectionsByUserID (env.Remove s.ext channel ur.id) msg.target = none) :
    processTeardown env ur channel tc false msg s
      = (NewRTMTypeError ErrorID.NoSessionForUser "target not found" msg.id,
         { (s.log (Event.remove channel ur.id)) with
             ext := env.Remove s.ext channel ur.id }) := by
  unfold processTeardown
  rw [if_pos h]
  simp [hl]
/-! ## The engine: Call responder, Hangup and Signal -/

theorem sendOthers_eq_sendAll (l : List ConnID) (c : ConnID) (p : Payload) (s : State σ) :
    sendOthers l c p s = sendAll (l.filter (fun k => k ≠ c)) p s := by
  unfold sendOthers sendAll
  induction l generalizing s with
  | nil => rfl
  | cons k t ih =>
    by_cases h : k = c
    · simp [List.filter_cons, h, ih]
    · simp [List.filter_cons, h, ih]

theorem processCallNotify_notBusy (env : Env σ) (c : ConnID) (ur : userRecord)
    (channel : Channel) (extra : RTMDataWebRTCAccept) (msg : RTMTypeWebRTC) (s : State σ)
    (h : ∀ connections, env.LookupConnectionsByUserID s.ext ur.id = some connections →
      ¬ (extra.accept = false ∧ extra.reason = "reject_busy" ∧ connections.length > 1)) :
    processCallNotify env c ur channel extra msg s
      = processCallForward env ur channel msg
          (sendAll (otherSessions env s.ext ur.id c) (Payload.webrtc (clearedMsg env msg)) s) := by
  unfold otherSessions
  cases hl : env.LookupConnectionsByUserID s.ext ur.id with
  | none =>
    rw [processCallNotify_unlisted env c ur channel extra msg s hl]
    rfl
  | some connections =>
    rw [processCallNotify_others env c ur channel extra msg s connections hl (h connections hl),
      sendOthers_eq_sendAll]

theorem sends_sendAll (l : List ConnID) (p : Payload) (s : State σ) :
    sends (sendAll l p s).trace = sends s.trace ++ l.map (fun k => (k, p)) := by
  rw [sendAll_trace, sends_append, sends_map_send]

theorem sends_log_get (s : State σ) (key : String) :
    sends (s.log (Event.get key)).trace = sends s.trace := by
  simp [sends_append, sends]

theorem sends_log_add (s : State σ) (ch : Channel) (user : String) (c : ConnID) :
    sends (s.log (Event.add ch user c)).trace = sends s.trace := by
  simp [sends_append, sends]

theorem sends_Send (s : State σ) (k : ConnID) (p : Payload) :
    sends (Send k p s).trace = sends s.trace ++ [(k, p)] := by
  simp [sends_append, sends]

/-- C12: a Call answer of user `B` in a plain call (group empty) that passed the
checks and decodes to `accept = true`, the add having succeeded: `B` is added
to the channel with the handling connection right after the registry lookup;
if the membership of the channel (after the add) holds the connection `k` for
the target, the result is nil and the message with source `B` and request id 0
is sent to `k`, after the notifications to the other sessions of `B`; if it
holds none, the result is `NoSessionForUser` and only those notifications are
sent. -/
theorem processWebRTCMessage_accept_forward (env : Env σ) (c : ConnID) (msg : RTMTypeWebRTC)
    (s : State σ) (ur : userRecord) (record : channelRecord) (extra : RTMDataWebRTCAccept)
    (ext2 : σ)
    (hv : CallResponderValidated env c msg s ur record extra)
    (hgroup : msg.group = "") (haccept : extra.accept = true)
    (hadd : env.Add s.ext record.channel ur.id c = (none, ext2)) :
    (∃ rest, (processWebRTCMessage env c msg s).2.trace
        = s.trace ++ Event.get msg.channel :: Event.add record.channel ur.id c :: rest) ∧
    (∀ k, env.Get ext2 record.channel msg.target = some k →
      (processWebRTCMessage env c msg s).1 = Result.nil ∧
      sends (processWebRTCMessage env c msg s).2.trace
        = sends s.trace
          ++ (otherSessions env ext2 ur.id c).map
              (fun k' => (k', Payload.webrtc (clearedMsg env msg)))
          ++ [(k, Payload.webrtc { msg with source := ur.id, id := 0 })]) ∧
    (env.Get ext2 record.channel msg.target = none →
      (∃ text id, (processWebRTCMessage env c msg s).1
        = NewRTMTypeError ErrorID.NoSessionForUser text id) ∧
      sends (processWebRTCMessage env c msg s).2.trace
        = sends s.trace
          ++ (otherSessions env ext2 ur.id c).map
              (fun k' => (k', Payload.webrtc (clearedMsg env msg)))) := by
  rw [responder_plain_accept env c msg s ur record extra ext2 hv hgroup haccept hadd,
    processCallNotify_notBusy _ _ _ _ _ _ _ (by intro l _ hb; rw [haccept] at hb; cases hb.1)]
  refine ⟨?_, ?_, ?_⟩
  · cases hg : env.Get ext2 record.channel msg.target with
    | none =>
      rw [processCallForward_missing _ _ _ _ _ (by simpa using hg)]
      refine ⟨(otherSessions env ext2 ur.id c).map
        (fun k' => Event.send k' (Payload.webrtc (clearedMsg env msg))), ?_⟩
      simp [sendAll_trace]
    | some k =>
      rw [processCallForward_found _ _ _ _ _ k (by simpa using hg)]
      refine ⟨(otherSessions env ext2 ur.id c).map
        (fun k' => Event.send k' (Payload.webrtc (clearedMsg env msg)))
        ++ [Event.send k (Payload.webrtc (forwardedMsg ur msg))], ?_⟩
      simp [sendAll_trace]
  · intro k hg
    rw [processCallForward_found _ _ _ _ _ k (by simpa using hg)]
    refine ⟨rfl, ?_⟩
    simp only [sends_Send, sends_sendAll]
    simp [sends_append, sends, forwardedMsg]
  · intro hg
    rw [processCallForward_missing _ _ _ _ _ (by simpa using hg)]
    refine ⟨⟨_, _, rfl⟩, ?_⟩
    simp only [sends_sendAll]
    simp [sends_append, sends]

/-- C13: a plain Call answer (group empty) that passed the checks and decodes
to `accept = false` with reason `reject_busy`, from a user for whom the
directory lists more than one connection, returns nil and changes nothing but
the trace of the registry lookup: no message is sent and the user is not
added to the channel. -/
theorem processWebRTCMessage_busy_suppressed (env : Env σ) (c : ConnID) (msg : RTMTypeWebRTC)
    (s : State σ) (ur : userRecord) (record : channelRecord) (extra : RTMDataWebRTCAccept)
    (connections : List ConnID)
    (hv : CallResponderValidated env c msg s ur record extra)
    (hgroup : msg.group = "") (haccept : extra.accept = false)
    (hreason : extra.reason = "reject_busy")
    (hlookup : env.LookupConnectionsByUserID s.ext ur.id = some connections)
    (hmany : connections.length > 1) :
    processWebRTCMessage env c msg s = (Result.nil, s.log (Event.get msg.channel)) := by
  rw [responder_plain_reject env c msg s ur record extra hv hgroup haccept]
  exact processCallNotify_busy env c ur record.channel extra msg _ connections
    (by simpa using hlookup) haccept hreason hmany

/-- C17: a Call answer with a group that passed the checks and decodes to
`accept = false` gets `BadMessage` correlated to its request id, and the state
changes by the trace of the registry lookup only: nothing is forwarded or
sent, the sender is not added. -/
theorem processWebRTCMessage_group_reject (env : Env σ) (c : ConnID) (msg : RTMTypeWebRTC)
    (s : State σ) (ur : userRecord) (record : channelRecord) (extra : RTMDataWebRTCAccept)
    (hv : CallResponderValidated env c msg s ur record extra)
    (hgroup : msg.group ≠ "") (haccept : extra.accept = false) :
    ∃ text, processWebRTCMessage env c msg s
      = (NewRTMTypeError ErrorID.BadMessage text msg.id, s.log (Event.get msg.channel)) :=
  ⟨_, responder_group_reject env c msg s ur record extra hv hgroup haccept⟩

theorem processCallOffer_unanswered (env : Env σ) (c : ConnID) (ur : userRecord)
    (msg : RTMTypeWebRTC) (channel : Channel) (extra : Option String) (s : State σ)
    (hlookup : env.LookupConnectionsByUserID s.ext msg.target = none) :
    processCallOffer env c ur msg channel extra s =
      (NewRTMTypeError ErrorID.NoSessionForUser "target not found" 0,
       Send c (Payload.reply
         { type := env.RTMTypeNameWebRTC
           subtype := env.RTMSubtypeNameWebRTCChannel
           replyTo := msg.id
           channel := channel.id
           hash := env.EncodeToString
             (computeWebRTCChannelHash env.hmac msg.type ur.id msg.target channel.id)
           version := currentWebRTCPayloadVersion
           data := extra }) s) := by
  unfold processCallOffer
  simp only [Send_ext, hlookup]

theorem processCallInitiator_offer (env : Env σ) (c : ConnID) (msg : RTMTypeWebRTC)
    (s : State σ) (ur : userRecord) (channel : Channel) (ext1 ext2 : σ)
    (extra : Option String)
    (hsub : msg.subtype = env.RTMSubtypeNameWebRTCCall)
    (hne : env.RTMSubtypeNameWebRTCCall ≠ env.RTMSubtypeNameWebRTCGroup)
    (hinit : msg.initiator = true)
    (hb : env.Bound s.ext c = some ur)
    (htarget : msg.target ≠ "") (hself : msg.target ≠ ur.id)
    (hstate : msg.state ≠ "") (hsource : msg.source = "")
    (hchannel : msg.channel = "") (hhash : msg.hash = "") (hdata : msg.data = none)
    (hcreate : env.CreateRandomChannel s.ext = (Except.ok channel, ext1))
    (hadd : env.Add ext1 channel ur.id c = (none, ext2))
    (hextra : (env.Pipeline ext2 channel = none ∧ extra = none) ∨
      ∃ pipeline encoded, env.Pipeline ext2 channel = some pipeline ∧
        env.MarshalIndent { group := none, pipeline := some pipeline } = Except.ok encoded ∧
        extra = some encoded) :
    processWebRTCMessage env c msg s =
      processCallOffer env c ur msg channel extra
        (SetIfAbsent channel.id { when := env.Now ext2, channel := channel }
          { ((s.log Event.createRandomChannel).log (Event.add channel ur.id c)) with
              ext := ext2 }) := by
  unfold processWebRTCMessage processCall processCallInitiator
  simp only [minimalWebRTCPayloadVersion, Nat.not_lt_zero, if_false, hsub, hne, if_true, hb,
    htarget, hself, hstate, hsource, hinit, hchannel, hhash, hdata, hcreate, hadd, ne_eq,
    not_true_eq_false, or_self, SetIfAbsent_ext]
  rcases hextra with ⟨hp, he⟩ | ⟨pipeline, encoded, hp, hm, he⟩
  · subst he
    simp only [hp]
  · subst he
    simp only [hp, hm]

/-- C11: a valid Call offer of user `A` (channel created, `A` added, pipeline
descriptor encoded if there is one) to a target for which the directory has no
entry makes the engine create the channel, add `A` with the handling
connection, offer the record to the registry with `SetIfAbsent` and send
exactly one message, the reply to `A` with the new channel id and hash;
`processWebRTCMessage` returns a `NoSessionForUser` error and `onWebRTC`
returns nil. -/
theorem processWebRTCMessage_offer_unanswered (env : Env σ) (c : ConnID)
    (msg : RTMTypeWebRTC) (s : State σ) (ur : userRecord) (channel : Channel)
    (ext1 ext2 : σ) (extra : Option String)
    (hsub : msg.subtype = env.RTMSubtypeNameWebRTCCall)
    (hne : env.RTMSubtypeNameWebRTCCall ≠ env.RTMSubtypeNameWebRTCGroup)
    (hinit : msg.initiator = true)
    (hb : env.Bound s.ext c = some ur)
    (htarget : msg.target ≠ "") (hself : msg.target ≠ ur.id)
    (hstate : msg.state ≠ "") (hsource : msg.source = "")
    (hchannel : msg.channel = "") (hhash : msg.hash = "") (hdata : msg.data = none)
    (hcreate : env.CreateRandomChannel s.ext = (Except.ok channel, ext1))
    (hadd : env.Add ext1 channel ur.id c = (none, ext2))
    (hextra : (env.Pipeline ext2 channel = none ∧ extra = none) ∨
      ∃ pipeline encoded, env.Pipeline ext2 channel = some pipeline ∧
        env.MarshalIndent { group := none, pipeline := some pipeline } = Except.ok encoded ∧
        extra = some encoded)
    (hlookup : env.LookupConnectionsByUserID ext2 msg.target = none) :
    (∃ text id, (processWebRTCMessage env c msg s).1
        = NewRTMTypeError ErrorID.NoSessionForUser text id) ∧
    (processWebRTCMessage env c msg s).2.trace
      = s.trace ++
        [Event.createRandomChannel,
         Event.add channel ur.id c,
         Event.setIfAbsent channel.id { when := env.Now ext2, channel := channel },
         Event.send c (Payload.reply
           { type := env.RTMTypeNameWebRTC
             subtype := env.RTMSubtypeNameWebRTCChannel
             replyTo := msg.id
             channel := channel.id
             hash := env.EncodeToString
               (computeWebRTCChannelHash env.hmac msg.type ur.id msg.target channel.id)
             version := currentWebRTCPayloadVersion
             data := extra })] ∧
    (onWebRTC env c msg s).1 = Result.nil := by
  have hp := processCallInitiator_offer env c msg s ur channel ext1 ext2 extra hsub hne hinit
    hb htarget hself hstate hsource hchannel hhash hdata hcreate hadd hextra
  rw [processCallOffer_unanswered _ _ _ _ _ _ _ (by simpa using hlookup)] at hp
  refine ⟨⟨_, _, by rw [hp]⟩, ?_, ?_⟩
  · rw [hp]
    simp
  · unfold onWebRTC
    rw [hp]
    rfl

theorem demoDecode_roundtrip (input : String) :
    demoDecode (demoEncode (demoHmac input)) = some (demoHmac input) := by
  unfold demoDecode demoEncode demoHmac
  simp [Function.comp_def]

/-- C18: a Call answer of user `B` with a group and `accept = true` that is
forwarded to the connection of the target `T`: the hash of the forwarded
message is the encoded hash over `(msg.Type, B, T, channel)`, whatever hash the
message came with, so that decoding it and checking it with the roles
exchanged, on the fields of the forwarded message, gives true.  The registry
is keyed and the decoder inverts the encoder on hashes. -/
theorem processWebRTCMessage_group_accept_hash (env : Env σ) (c : ConnID)
    (msg : RTMTypeWebRTC) (s : State σ) (ur : userRecord) (record : channelRecord)
    (extra : RTMDataWebRTCAccept) (k : ConnID) (decode : String → Option Bytes)
    (hv : CallResponderValidated env c msg s ur record extra)
    (hwf : Registry.keyed s.channels)
    (hdecode : ∀ input, decode (env.EncodeToString (env.hmac input)) = some (env.hmac input))
    (hgroup : msg.group ≠ "") (haccept : extra.accept = true)
    (hget : env.Get s.ext record.channel msg.target = some k) :
    (processWebRTCMessage env c msg s).1 = Result.nil ∧
    ∃ forwarded : RTMTypeWebRTC,
      sends (processWebRTCMessage env c msg s).2.trace
        = sends s.trace ++ [(k, Payload.webrtc forwarded)] ∧
      forwarded.hash = env.EncodeToString
        (computeWebRTCChannelHash env.hmac msg.type ur.id msg.target msg.channel) ∧
      ∃ tag, decode forwarded.hash = some tag ∧
        checkWebRTCChannelHash env.hmac tag forwarded.type forwarded.target forwarded.source
          forwarded.channel = true := by
  have hid : record.channel.id = msg.channel := hwf _ _ hv.registered
  rw [responder_group_accept env c msg s ur record extra hv hgroup haccept,
    processCallForward_found _ _ _ _ _ k (by simpa using hget)]
  refine ⟨rfl, forwardedMsg ur
    { msg with
      hash := env.EncodeToString
        (computeWebRTCChannelHash env.hmac msg.type ur.id msg.target record.channel.id) },
    ?hs, ?hh, ?ht⟩
  case hs =>
    rw [sends_Send, sends_log_get]
  case hh =>
    simp only [forwardedMsg, hid]
  case ht =>
    refine ⟨computeWebRTCChannelHash env.hmac msg.type ur.id msg.target msg.channel, ?_, ?_⟩
    · simp only [forwardedMsg, hid]
      rw [computeWebRTCChannelHash_eq_min_max]
      exact hdecode _
    · simp only [forwardedMsg, checkWebRTCChannelHash, decide_eq_true_eq]
      rw [computeWebRTCChannelHash_eq_min_max, computeWebRTCChannelHash_eq_min_max,
        min_comm, max_comm]
theorem count_notifications (l : List ConnID) (c k : ConnID) (p : Payload) :
    ((l.filter (fun k' => k' ≠ c)).map (fun k' => (k', p))).count (k, p)
      = if k = c then 0 else l.count k := by
  induction l with
  | nil => simp
  | cons a t ih =>
    by_cases hac : a = c
    · subst hac
      by_cases hk : k = a
      · subst hk
        simpa [List.filter_cons] using ih
      · have hne : a ≠ k := fun h => hk h.symm
        simp only [List.filter_cons, ne_eq, not_true_eq_false, decide_False, Bool.false_eq_true,
          if_false, ih, hk, List.count_cons, beq_iff_eq, hne, add_zero]
    · by_cases hk : k = a
      · subst hk
        simp only [List.filter_cons, ne_eq, hac, not_false_eq_true, decide_True, if_true,
          List.map_cons, List.count_cons, ih, beq_self_eq_true, if_false]
      · have hne : a ≠ k := fun h => hk h.symm
        have hne' : ¬ ((a, p) = (k, p)) := fun h => hne (Prod.mk.inj h).1
        simp only [List.filter_cons, ne_eq, hac, not_false_eq_true, decide_True, if_true,
          List.map_cons, List.count_cons, ih, beq_iff_eq, hne, hne', if_false, add_zero]

/-- C19: a plain Call answer (group empty) of user `B` on connection `c` that
passed the checks (and the add, when it accepts) and is not busy-suppressed:
the synthetic Call message (`initiator = true`, channel of the answer, source
the target of the answer, current version) is sent once per entry of the
directory list of `B` other than `c`, so exactly once to each listed
connection when the list has no duplicates, and never to `c`. -/
theorem processWebRTCMessage_answer_notifies (env : Env σ) (c : ConnID)
    (msg : RTMTypeWebRTC) (s : State σ) (ur : userRecord) (record : channelRecord)
    (extra : RTMDataWebRTCAccept) (ext1 : σ) (connections : List ConnID)
    (hv : CallResponderValidated env c msg s ur record extra)
    (hgroup : msg.group = "")
    (hadd : (extra.accept = true ∧ env.Add s.ext record.channel ur.id c = (none, ext1))
      ∨ (extra.accept = false ∧ ext1 = s.ext))
    (hlookup : env.LookupConnectionsByUserID ext1 ur.id = some connections)
    (hnotbusy : ¬ (extra.accept = false ∧ extra.reason = "reject_busy"
      ∧ connections.length > 1)) :
    ((clearedMsg env msg).subtype = env.RTMSubtypeNameWebRTCCall ∧
      (clearedMsg env msg).initiator = true ∧
      (clearedMsg env msg).channel = msg.channel ∧
      (clearedMsg env msg).source = msg.target ∧
      (clearedMsg env msg).version = currentWebRTCPayloadVersion) ∧
    ∃ delta, sends (processWebRTCMessage env c msg s).2.trace = sends s.trace ++ delta ∧
      (∀ k, delta.count (k, Payload.webrtc (clearedMsg env msg))
        = if k = c then 0 else connections.count k) ∧
      (connections.Nodup → ∀ k ∈ connections, k ≠ c →
        delta.count (k, Payload.webrtc (clearedMsg env msg)) = 1) ∧
      delta.count (c, Payload.webrtc (clearedMsg env msg)) = 0 := by
  refine ⟨⟨rfl, rfl, rfl, rfl, rfl⟩, ?_⟩
  have hfwd : Payload.webrtc (forwardedMsg ur msg) ≠ Payload.webrtc (clearedMsg env msg) := by
    intro h
    have h' := congrArg RTMTypeWebRTC.initiator (Payload.webrtc.inj h)
    simp [forwardedMsg, clearedMsg, hv.responder] at h'
  have key : ∃ s1 : State σ, sends s1.trace = sends s.trace ∧ s1.ext = ext1 ∧
      processWebRTCMessage env c msg s = processCallNotify env c ur record.channel extra msg s1 := by
    rcases hadd with ⟨ha, hadd⟩ | ⟨ha, he⟩
    · exact ⟨{ ((s.log (Event.get msg.channel)).log (Event.add record.channel ur.id c)) with
          ext := ext1 }, by simp [sends_append, sends], rfl,
        responder_plain_accept env c msg s ur record extra ext1 hv hgroup ha hadd⟩
    · subst he
      exact ⟨s.log (Event.get msg.channel), by simp [sends_append, sends], rfl,
        responder_plain_reject env c msg s ur record extra hv hgroup ha⟩
  obtain ⟨s1, hs1, he1, hp⟩ := key
  have hl : env.LookupConnectionsByUserID s1.ext ur.id = some connections := by
    rw [he1]; exact hlookup
  rw [hp, processCallNotify_others env c ur record.channel extra msg s1 connections hl hnotbusy,
    sendOthers_eq_sendAll]
  have hcount : ∀ (tail : List (ConnID × Payload)),
      (∀ k, tail.count (k, Payload.webrtc (clearedMsg env msg)) = 0) →
      (∀ k, ((connections.filter (fun k' => k' ≠ c)).map
          (fun k' => (k', Payload.webrtc (clearedMsg env msg))) ++ tail).count
            (k, Payload.webrtc (clearedMsg env msg))
        = if k = c then 0 else connections.count k) := by
    intro tail ht k
    rw [List.count_append, count_notifications, ht, add_zero]
  have hfinish : ∀ delta : List (ConnID × Payload),
      (∀ k, delta.count (k, Payload.webrtc (clearedMsg env msg))
        = if k = c then 0 else connections.count k) →
      (connections.Nodup → ∀ k ∈ connections, k ≠ c →
        delta.count (k, Payload.webrtc (clearedMsg env msg)) = 1) ∧
      delta.count (c, Payload.webrtc (clearedMsg env msg)) = 0 := by
    intro delta hd
    refine ⟨?_, ?_⟩
    · intro hnd k hk hkc
      rw [hd k, if_neg hkc]
      exact List.count_eq_one_of_mem hnd hk
    · rw [hd c, if_pos rfl]
  cases hg : env.Get (sendAll (connections.filter (fun k' => k' ≠ c))
      (Payload.webrtc (clearedMsg env msg)) s1).ext record.channel msg.target with
  | none =>
    rw [processCallForward_missing _ _ _ _ _ hg]
    refine ⟨_, ?_, hcount [] (by simp), hfinish _ (hcount [] (by simp))⟩
    simp only [sends_sendAll, hs1, List.append_nil]
  | some k1 =>
    rw [processCallForward_found _ _ _ _ _ k1 hg]
    have ht : ∀ k, [(k1, Payload.webrtc (forwardedMsg ur msg))].count
        (k, Payload.webrtc (clearedMsg env msg)) = 0 := by
      intro k
      rw [List.count_eq_zero]
      intro hmem
      rw [List.mem_singleton] at hmem
      exact hfwd (Prod.mk.inj hmem).2.symm
    refine ⟨_, ?_, hcount _ ht, hfinish _ (hcount _ ht)⟩
    simp only [sends_Send, sends_sendAll, hs1, List.append_assoc]

theorem processRelay_trace (env : Env σ) (ur : userRecord) (channel : Channel)
    (tc : Option ConnID) (ok : Bool) (msg : RTMTypeWebRTC) (s : State σ) :
    (processRelay env ur channel tc ok msg s).2.trace = s.trace ∨
    (processRelay env ur channel tc ok msg s).2.trace
      = s.trace ++ [Event.forward channel ur.id msg.target tc msg] := by
  unfold processRelay
  repeat' split
  all_goals first | (left; rfl) | (right; rfl)

theorem processTeardown_hangup_trace (env : Env σ) (ur : userRecord) (channel : Channel)
    (tc : Option ConnID) (ok : Bool) (msg : RTMTypeWebRTC) (s : State σ)
    (h : msg.subtype = env.RTMSubtypeNameWebRTCHangup) :
    ∃ rest, (processTeardown env ur channel tc ok msg s).2.trace
      = s.trace ++ Event.remove channel ur.id :: rest := by
  cases ok with
  | true =>
    rw [processTeardown_hangup_relay env ur channel tc msg s h]
    rcases processRelay_trace env ur channel tc true msg
      { (s.log (Event.remove channel ur.id)) with ext := env.Remove s.ext channel ur.id }
      with h1 | h1
    · exact ⟨[], by rw [h1]; simp⟩
    · exact ⟨[Event.forward channel ur.id msg.target tc msg], by rw [h1]; simp⟩
  | false =>
    cases hl : env.LookupConnectionsByUserID (env.Remove s.ext channel ur.id) msg.target with
    | none =>
      rw [processTeardown_hangup_unlisted env ur channel tc msg s h hl]
      exact ⟨[], by simp⟩
    | some connections =>
      rw [processTeardown_hangup_listed env ur channel tc msg s connections h hl]
      exact ⟨connections.map
        (fun k => Event.send k (Payload.webrtc { msg with source := ur.id, id := 0 })),
        by simp [sendAll_trace]⟩

theorem hangupSignal_cases (env : Env σ) (c : ConnID) (msg : RTMTypeWebRTC) (s : State σ)
    (ur : userRecord) (record : channelRecord)
    (hv : HangupSignalValidated env c msg s ur record) :
    ∃ tc ok, processWebRTCMessage env c msg s
      = processTeardown env ur record.channel tc ok msg (s.log (Event.get msg.channel)) := by
  by_cases hmode : msg.group ≠ "" ∧ msg.target = msg.group
  · exact ⟨_, _, hangupSignal_group env c msg s ur record hv hmode⟩
  · by_cases ht : msg.target = ""
    · exact ⟨_, _, hangupSignal_noTarget env c msg s ur record hv ht⟩
    · exact ⟨_, _, hangupSignal_target env c msg s ur record hv hmode ht⟩

theorem processHangupSignal_signal_trace (env : Env σ) (c : ConnID) (msg : RTMTypeWebRTC)
    (s : State σ) (h : msg.subtype ≠ env.RTMSubtypeNameWebRTCHangup) :
    ∃ rest, (processHangupSignal env c msg s).2.trace = s.trace ++ rest ∧
      ∀ ch user, Event.remove ch user ∉ rest := by
  have relay : ∀ (ur : userRecord) (channel : Channel) (tc : Option ConnID) (ok : Bool),
      ∃ rest, (processTeardown env ur channel tc ok msg (s.log (Event.get msg.channel))).2.trace
        = s.trace ++ rest ∧ ∀ ch user, Event.remove ch user ∉ rest := by
    intro ur channel tc ok
    rw [processTeardown_signal env ur channel tc ok msg _ h]
    rcases processRelay_trace env ur channel tc ok msg (s.log (Event.get msg.channel))
      with h1 | h1
    · exact ⟨[Event.get msg.channel], by rw [h1]; simp, by simp⟩
    · exact ⟨[Event.get msg.channel, Event.forward channel ur.id msg.target tc msg],
        by rw [h1]; simp, by simp⟩
  unfold processHangupSignal
  repeat' split
  all_goals first
    | exact relay _ _ _ _
    | (refine ⟨[Event.get msg.channel], ?_, ?_⟩ <;> simp <;> done)
    | (refine ⟨[], ?_, ?_⟩ <;> simp)

/-- C14: a Hangup message that passed the checks removes the sender from the
channel right after the registry lookup, before any send or forward, whatever
the target resolution gives; a Signal message never calls `Remove`. -/
theorem processWebRTCMessage_hangup_removes (env : Env σ) (c : ConnID) (s : State σ) :
    (∀ msg ur record, HangupSignalValidated env c msg s ur record →
      msg.subtype = env.RTMSubtypeNameWebRTCHangup →
      ∃ rest, (processWebRTCMessage env c msg s).2.trace
        = s.trace ++ Event.get msg.channel :: Event.remove record.channel ur.id :: rest) ∧
    (∀ msg, msg.subtype = env.RTMSubtypeNameWebRTCSignal →
      env.RTMSubtypeNameWebRTCSignal ≠ env.RTMSubtypeNameWebRTCHangup →
      env.RTMSubtypeNameWebRTCSignal ≠ env.RTMSubtypeNameWebRTCGroup →
      env.RTMSubtypeNameWebRTCSignal ≠ env.RTMSubtypeNameWebRTCCall →
      ∃ rest, (processWebRTCMessage env c msg s).2.trace = s.trace ++ rest ∧
        ∀ ch user, Event.remove ch user ∉ rest) := by
  refine ⟨?_, ?_⟩
  · intro msg ur record hv hsub
    obtain ⟨tc, ok, hp⟩ := hangupSignal_cases env c msg s ur record hv
    obtain ⟨rest, hr⟩ := processTeardown_hangup_trace env ur record.channel tc ok msg
      (s.log (Event.get msg.channel)) hsub
    exact ⟨rest, by rw [hp, hr]; simp⟩
  · intro msg hsub h1 h2 h3
    have hp : processWebRTCMessage env c msg s = processHangupSignal env c msg s := by
      unfold processWebRTCMessage
      simp [minimalWebRTCPayloadVersion, hsub, h2, h3]
    rw [hp]
    exact processHangupSignal_signal_trace env c msg s (by rw [hsub]; exact h1)

/-- C15: a Hangup message of user `A` that passed the checks, not in group
mode, whose target has no connection in the channel: `Forward` is not called;
if the directory lists `k1..kn` for the target, the message with source `A`
and request id 0 is sent to each `ki` in turn and the result is nil; if the
directory has no entry, nothing is sent and the result is `NoSessionForUser`. -/
theorem processWebRTCMessage_hangup_fallback (env : Env σ) (c : ConnID)
    (msg : RTMTypeWebRTC) (s : State σ) (ur : userRecord) (record : channelRecord)
    (hv : HangupSignalValidated env c msg s ur record)
    (hsub : msg.subtype = env.RTMSubtypeNameWebRTCHangup)
    (hmode : ¬ (msg.group ≠ "" ∧ msg.target = msg.group))
    (hmissing : msg.target = "" ∨ env.Get s.ext record.channel msg.target = none) :
    (∀ connections,
      env.LookupConnectionsByUserID (env.Remove s.ext record.channel ur.id) msg.target
        = some connections →
      (processWebRTCMessage env c msg s).1 = Result.nil ∧
      (processWebRTCMessage env c msg s).2.trace
        = s.trace ++ Event.get msg.channel :: Event.remove record.channel ur.id ::
            connections.map (fun k =>
              Event.send k (Payload.webrtc { msg with source := ur.id, id := 0 }))) ∧
    (env.LookupConnectionsByUserID (env.Remove s.ext record.channel ur.id) msg.target = none →
      (processWebRTCMessage env c msg s).1
        = NewRTMTypeError ErrorID.NoSessionForUser "target not found" msg.id ∧
      (processWebRTCMessage env c msg s).2.trace
        = s.trace ++ [Event.get msg.channel, Event.remove record.channel ur.id]) := by
  have hp : ∃ tc, processWebRTCMessage env c msg s
      = processTeardown env ur record.channel tc false msg (s.log (Event.get msg.channel)) := by
    by_cases ht : msg.target = ""
    · exact ⟨_, hangupSignal_noTarget env c msg s ur record hv ht⟩
    · have hg : env.Get s.ext record.channel msg.target = none := by
        rcases hmissing with h | h
        · exact absurd h ht
        · exact h
      refine ⟨none, ?_⟩
      rw [hangupSignal_target env c msg s ur record hv hmode ht, hg]
      rfl
  obtain ⟨tc, hp⟩ := hp
  refine ⟨?_, ?_⟩
  · intro connections hl
    rw [hp, processTeardown_hangup_listed env ur record.channel tc msg _ connections hsub
      (by simpa using hl)]
    exact ⟨rfl, by simp [sendAll_trace]⟩
  · intro hl
    rw [hp, processTeardown_hangup_unlisted env ur record.channel tc msg _ hsub
      (by simpa using hl)]
    exact ⟨rfl, by simp⟩

/-- C16: routing of a Signal message of user `A` that passed the checks: in
group mode (group not empty, target = group) the result is that of `Forward`
called with `(A, target, nil, msg)`; otherwise, with a target for which the
channel holds the connection `k`, it is that of `Forward` called with
`(A, target, k, msg)`; otherwise it is `NoSessionForUser`, `Forward` is not
called and nothing is sent. -/
theorem processWebRTCMessage_signal_routing (env : Env σ) (c : ConnID)
    (msg : RTMTypeWebRTC) (s : State σ) (ur : userRecord) (record : channelRecord)
    (hv : HangupSignalValidated env c msg s ur record)
    (hsub : msg.subtype = env.RTMSubtypeNameWebRTCSignal)
    (hne : env.RTMSubtypeNameWebRTCSignal ≠ env.RTMSubtypeNameWebRTCHangup) :
    (msg.group ≠ "" ∧ msg.target = msg.group →
      (processWebRTCMessage env c msg s).1
        = Result.ofError (env.Forward s.ext record.channel ur.id msg.target none msg).1 ∧
      (processWebRTCMessage env c msg s).2.trace
        = s.trace ++ [Event.get msg.channel,
            Event.forward record.channel ur.id msg.target none msg]) ∧
    (¬ (msg.group ≠ "" ∧ msg.target = msg.group) → msg.target ≠ "" →
      ∀ k, env.Get s.ext record.channel msg.target = some k →
      (processWebRTCMessage env c msg s).1
        = Result.ofError (env.Forward s.ext record.channel ur.id msg.target (some k) msg).1 ∧
      (processWebRTCMessage env c msg s).2.trace
        = s.trace ++ [Event.get msg.channel,
            Event.forward record.channel ur.id msg.target (some k) msg]) ∧
    (¬ (msg.group ≠ "" ∧ msg.target = msg.group) →
      (msg.target = "" ∨ env.Get s.ext record.channel msg.target = none) →
      (processWebRTCMessage env c msg s).1
        = NewRTMTypeError ErrorID.NoSessionForUser "target not found" msg.id ∧
      (processWebRTCMessage env c msg s).2.trace = s.trace ++ [Event.get msg.channel]) := by
  have hnh : msg.subtype ≠ env.RTMSubtypeNameWebRTCHangup := by rw [hsub]; exact hne
  refine ⟨?_, ?_, ?_⟩
  · intro hmode
    rw [hangupSignal_group env c msg s ur record hv hmode, processTeardown_signal _ _ _ _ _ _ _ hnh,
      processRelay_forward _ _ _ _ _ _ _ (Or.inl rfl)]
    exact ⟨rfl, by simp⟩
  · intro hmode ht k hg
    rw [hangupSignal_target env c msg s ur record hv hmode ht, hg,
      processTeardown_signal _ _ _ _ _ _ _ hnh,
      processRelay_forward _ _ _ _ _ _ _ (Or.inr (Option.some_ne_none k))]
    exact ⟨rfl, by simp⟩
  · intro hmode hmissing
    have hp : processWebRTCMessage env c msg s
        = processTeardown env ur record.channel none false msg
            (s.log (Event.get msg.channel)) := by
      by_cases ht : msg.target = ""
      · exact hangupSignal_noTarget env c msg s ur record hv ht
      · have hg : env.Get s.ext record.channel msg.target = none := by
          rcases hmissing with h | h
          · exact absurd h ht
          · exact h
        rw [hangupSignal_target env c msg s ur record hv hmode ht, hg]
        rfl
    rw [hp, processTeardown_signal _ _ _ _ _ _ _ hnh, processRelay_missing]
    exact ⟨rfl, by simp⟩

theorem demoOffered_keyed : Registry.keyed demoOffered.channels := by
  intro k record h
  simp only [demoOffered, channelsGet_cons] at h
  split_ifs at h with hk
  · simp only [Option.some.injEq] at h
    rw [← h, hk]
  · simp [channelsGet] at h

theorem demoAnswer_validated (group data : String) (extra : RTMDataWebRTCAccept)
    (h : demoEnv.Unmarshal (some data) = Except.ok (some extra)) :
    CallResponderValidated demoEnv 2 (demoAnswerMsg group data) demoOffered { id := "B" }
      demoRecord extra where
  subtype := rfl
  notGroup := by decide
  responder := rfl
  bound := rfl
  target := by show ("A" : String) ≠ ""; decide
  notSelf := by show ("A" : String) ≠ "B"; decide
  state := by show ("y" : String) ≠ ""; decide
  source := rfl
  channel := by show ("r" : String) ≠ ""; decide
  hash := by show ("h" : String) ≠ ""; decide
  data := by simp [demoAnswerMsg]
  registered := rfl
  checked := rfl
  decoded := h

theorem demoRelay_validated (c : ConnID) (user subtype group target : String)
    (hb : demoEnv.Bound demoOffered.ext c = some { id := user })
    (hs : subtype = "webrtc_hangup" ∨ subtype = "webrtc_signal") :
    HangupSignalValidated demoEnv c (demoRelayMsg subtype group target) demoOffered
      { id := user } demoRecord where
  subtype := hs
  notGroup := by
    show subtype ≠ "webrtc_group"
    rcases hs with h | h <;> subst h <;> decide
  notCall := by
    show subtype ≠ "webrtc_call"
    rcases hs with h | h <;> subst h <;> decide
  bound := hb
  state := by show ("z" : String) ≠ ""; decide
  source := rfl
  channel := by show ("r" : String) ≠ ""; decide
  hash := by show ("h" : String) ≠ ""; decide
  data := by simp [demoRelayMsg]
  registered := rfl
  checked := rfl

/-- Witness of C11: user `A` offers a call to user `C`, who has no connection. -/
theorem processWebRTCMessage_offer_unanswered_witness :
    (∃ text id, (processWebRTCMessage demoEnv 1 (demoOfferMsg "C") demoState).1
        = NewRTMTypeError ErrorID.NoSessionForUser text id) ∧
    (processWebRTCMessage demoEnv 1 (demoOfferMsg "C") demoState).2.trace
      = demoState.trace ++
        [Event.createRandomChannel,
         Event.add { ptr := 0, id := "r" } "A" 1,
         Event.setIfAbsent "r" { when := 1, channel := { ptr := 0, id := "r" } },
         Event.send 1 (Payload.reply
           { type := "webrtc"
             subtype := "webrtc_channel"
             replyTo := 7
             channel := "r"
             hash := demoEncode (computeWebRTCChannelHash demoHmac "webrtc" "A" "C" "r")
             version := currentWebRTCPayloadVersion
             data := none })] ∧
    (onWebRTC demoEnv 1 (demoOfferMsg "C") demoState).1 = Result.nil :=
  processWebRTCMessage_offer_unanswered demoEnv 1 (demoOfferMsg "C") demoState { id := "A" }
    { ptr := 0, id := "r" } { demoDirectory with fresh := 1 }
    { demoDirectory with fresh := 1, members := [("r", "A", 1)] } none
    rfl (by decide) rfl rfl (by decide) (by decide) (by decide) rfl rfl rfl rfl rfl rfl
    (Or.inl ⟨rfl, rfl⟩) rfl

/-- Witness of C12: user `B` accepts on connection 2 the call of `A`; connection 3
of `B` is notified and the answer is forwarded to connection 1. -/
theorem processWebRTCMessage_accept_forward_witness :
    (processWebRTCMessage demoEnv 2 (demoAnswerMsg "" "accept") demoOffered).1 = Result.nil ∧
    sends (processWebRTCMessage demoEnv 2 (demoAnswerMsg "" "accept") demoOffered).2.trace
      = sends demoOffered.trace
        ++ [(3, Payload.webrtc (clearedMsg demoEnv (demoAnswerMsg "" "accept")))]
        ++ [(1, Payload.webrtc { demoAnswerMsg "" "accept" with source := "B", id := 0 })] :=
  (processWebRTCMessage_accept_forward demoEnv 2 (demoAnswerMsg "" "accept") demoOffered
    { id := "B" } demoRecord { accept := true, reason := "" }
    { demoOffered.ext with members := [("r", "B", 2), ("r", "A", 1)] }
    (demoAnswer_validated "" "accept" _ rfl) rfl rfl rfl).2.1 1 rfl

/-- Witness of C13: user `B`, who has two connections, rejects as busy. -/
theorem processWebRTCMessage_busy_suppressed_witness :
    processWebRTCMessage demoEnv 2 (demoAnswerMsg "" "reject_busy") demoOffered
      = (Result.nil, demoOffered.log (Event.get "r")) :=
  processWebRTCMessage_busy_suppressed demoEnv 2 (demoAnswerMsg "" "reject_busy") demoOffered
    { id := "B" } demoRecord { accept := false, reason := "reject_busy" } [2, 3]
    (demoAnswer_validated "" "reject_busy" _ rfl) rfl rfl rfl rfl (by decide)

/-- Witness of C17: user `B` rejects an answer that carries a group. -/
theorem processWebRTCMessage_group_reject_witness :
    ∃ text, processWebRTCMessage demoEnv 2 (demoAnswerMsg "g1" "reject") demoOffered
      = (NewRTMTypeError ErrorID.BadMessage text 8, demoOffered.log (Event.get "r")) :=
  processWebRTCMessage_group_reject demoEnv 2 (demoAnswerMsg "g1" "reject") demoOffered
    { id := "B" } demoRecord { accept := false, reason := "reject" }
    (demoAnswer_validated "g1" "reject" _ rfl) (by decide) rfl

/-- Witness of C18: user `B` accepts with a group; the forwarded hash checks for
`(webrtc, A, B, r)`. -/
theorem processWebRTCMessage_group_accept_hash_witness :
    (processWebRTCMessage demoEnv 2 (demoAnswerMsg "g1" "accept") demoOffered).1 = Result.nil ∧
    ∃ forwarded : RTMTypeWebRTC,
      sends (processWebRTCMessage demoEnv 2 (demoAnswerMsg "g1" "accept") demoOffered).2.trace
        = sends demoOffered.trace ++ [(1, Payload.webrtc forwarded)] ∧
      forwarded.hash = demoEncode (computeWebRTCChannelHash demoHmac "webrtc" "B" "A" "r") ∧
      ∃ tag, demoDecode forwarded.hash = some tag ∧
        checkWebRTCChannelHash demoHmac tag forwarded.type forwarded.target forwarded.source
          forwarded.channel = true :=
  processWebRTCMessage_group_accept_hash demoEnv 2 (demoAnswerMsg "g1" "accept") demoOffered
    { id := "B" } demoRecord { accept := true, reason := "" } 1 demoDecode
    (demoAnswer_validated "g1" "accept" _ rfl) demoOffered_keyed demoDecode_roundtrip
    (by decide) rfl rfl

/-- Witness of C19: user `B` rejects on connection 2; connection 3 gets the
synthetic message once, connection 2 never. -/
theorem processWebRTCMessage_answer_notifies_witness :
    ∃ delta,
      sends (processWebRTCMessage demoEnv 2 (demoAnswerMsg "" "reject") demoOffered).2.trace
        = sends demoOffered.trace ++ delta ∧
      delta.count (3, Payload.webrtc (clearedMsg demoEnv (demoAnswerMsg "" "reject"))) = 1 ∧
      delta.count (2, Payload.webrtc (clearedMsg demoEnv (demoAnswerMsg "" "reject"))) = 0 :=
  match (processWebRTCMessage_answer_notifies demoEnv 2 (demoAnswerMsg "" "reject") demoOffered
    { id := "B" } demoRecord { accept := false, reason := "reject" } demoOffered.ext [2, 3]
    (demoAnswer_validated "" "reject" _ rfl) rfl (Or.inr ⟨rfl, rfl⟩) rfl (by decide)).2 with
  | ⟨delta, h1, _, h3, h4⟩ => ⟨delta, h1, h3 (by decide) 3 (by decide) (by decide), h4⟩

/-- Witness of C14: a Hangup and a Signal of user `A` on channel `r`. -/
theorem processWebRTCMessage_hangup_removes_witness :
    (∃ rest, (processWebRTCMessage demoEnv 1 (demoRelayMsg "webrtc_hangup" "" "B")
        demoOffered).2.trace
      = demoOffered.trace ++ Event.get "r" :: Event.remove { ptr := 0, id := "r" } "A" :: rest) ∧
    (∃ rest, (processWebRTCMessage demoEnv 1 (demoRelayMsg "webrtc_signal" "" "B")
        demoOffered).2.trace = demoOffered.trace ++ rest ∧
      ∀ ch user, Event.remove ch user ∉ rest) :=
  ⟨(processWebRTCMessage_hangup_removes demoEnv 1 demoOffered).1
      (demoRelayMsg "webrtc_hangup" "" "B") { id := "A" } demoRecord
      (demoRelay_validated 1 "A" "webrtc_hangup" "" "B" rfl (Or.inl rfl)) rfl,
   (processWebRTCMessage_hangup_removes demoEnv 1 demoOffered).2
      (demoRelayMsg "webrtc_signal" "" "B") rfl (by decide) (by decide) (by decide)⟩

/-- Witness of C15: user `A` hangs up before `B` answered; the Hangup goes to the
connections 2 and 3 of `B`. -/
theorem processWebRTCMessage_hangup_fallback_witness :
    (processWebRTCMessage demoEnv 1 (demoRelayMsg "webrtc_hangup" "" "B") demoOffered).1
      = Result.nil ∧
    (processWebRTCMessage demoEnv 1 (demoRelayMsg "webrtc_hangup" "" "B") demoOffered).2.trace
      = demoOffered.trace ++ Event.get "r" :: Event.remove { ptr := 0, id := "r" } "A" ::
          [2, 3].map (fun k => Event.send k
            (Payload.webrtc { demoRelayMsg "webrtc_hangup" "" "B" with source := "A", id := 0 })) :=
  (processWebRTCMessage_hangup_fallback demoEnv 1 (demoRelayMsg "webrtc_hangup" "" "B")
    demoOffered { id := "A" } demoRecord
    (demoRelay_validated 1 "A" "webrtc_hangup" "" "B" rfl (Or.inl rfl)) rfl (by decide)
    (Or.inr rfl)).1 [2, 3] rfl

/-- Witness of C16: a Signal in group mode, one to a member of the channel and one
to a user who is not in the channel. -/
theorem processWebRTCMessage_signal_routing_witness :
    ((processWebRTCMessage demoEnv 1 (demoRelayMsg "webrtc_signal" "g" "g") demoOffered).1
        = Result.nil ∧
      (processWebRTCMessage demoEnv 1 (demoRelayMsg "webrtc_signal" "g" "g")
          demoOffered).2.trace
        = demoOffered.trace ++ [Event.get "r",
            Event.forward { ptr := 0, id := "r" } "A" "g" none
              (demoRelayMsg "webrtc_signal" "g" "g")]) ∧
    ((processWebRTCMessage demoEnv 2 (demoRelayMsg "webrtc_signal" "" "A") demoOffered).1
        = Result.nil ∧
      (processWebRTCMessage demoEnv 2 (demoRelayMsg "webrtc_signal" "" "A")
          demoOffered).2.trace
        = demoOffered.trace ++ [Event.get "r",
            Event.forward { ptr := 0, id := "r" } "B" "A" (some 1)
              (demoRelayMsg "webrtc_signal" "" "A")]) ∧
    ((processWebRTCMessage demoEnv 1 (demoRelayMsg "webrtc_signal" "" "B") demoOffered).1
        = NewRTMTypeError ErrorID.NoSessionForUser "target not found" 9 ∧
      (processWebRTCMessage demoEnv 1 (demoRelayMsg "webrtc_signal" "" "B")
          demoOffered).2.trace = demoOffered.trace ++ [Event.get "r"]) :=
  ⟨(processWebRTCMessage_signal_routing demoEnv 1 (demoRelayMsg "webrtc_signal" "g" "g")
      demoOffered { id := "A" } demoRecord
      (demoRelay_validated 1 "A" "webrtc_signal" "g" "g" rfl (Or.inr rfl)) rfl
      (by decide)).1 (by decide),
   (processWebRTCMessage_signal_routing demoEnv 2 (demoRelayMsg "webrtc_signal" "" "A")
      demoOffered { id := "B" } demoRecord
      (demoRelay_validated 2 "B" "webrtc_signal" "" "A" rfl (Or.inr rfl)) rfl
      (by decide)).2.1 (by decide) (by decide) 1 rfl,
   (processWebRTCMessage_signal_routing demoEnv 1 (demoRelayMsg "webrtc_signal" "" "B")
      demoOffered { id := "A" } demoRecord
      (demoRelay_validated 1 "A" "webrtc_signal" "" "B" rfl (Or.inr rfl)) rfl
      (by decide)).2.2 (by decide) (Or.inr rfl)⟩

end Kwm
